import Mathlib

/-!
Verification of the torsion analysis/design engine in `cep.py`
(repository `beam_app`).

Shallow embedding conventions:
* Python floats are modelled as exact rationals (`ℚ`).
* `math.sqrt` is modelled as an explicit oracle parameter `msqrt : ℚ → ℚ`
  threaded through every function that calls it, exactly where the source
  binds `sqrt_fc = math.sqrt(fc)` or computes `math.sqrt(...)` for the
  demand.  Theorems that depend on the numerical value of a square root
  carry hypotheses constraining the oracle at the relevant argument.
* `math.pi` is modelled by the exact rational value of the IEEE-754 double
  that Python's `math.pi` denotes.
* Python runtime errors (`TypeError` from `float(None)`, `ValueError`
  raises, `ZeroDivisionError`, `math` domain errors, `OverflowError` from
  `math.ceil(inf)`) are modelled with `Except PyError`; the embedding
  checks each divisor at the exact program point where CPython would
  raise.  The constructors `invalidGeometry` and `invalidMaterial` exist
  only so that the spec's typed-failure taxonomy is statable; the source
  never raises them.
-/

/-- Exceptions observable from the engine functions.  `typeError` models
`float(None)`; `valueError` models the explicit `raise ValueError` for
`d <= 0`; `domainError` models `math.sqrt` on a negative argument;
`zeroDivisionError` models float division by zero; `overflowError` models
`math.ceil(float('inf'))`.  `invalidGeometry` and `invalidMaterial` are the
spec's typed failures, present only to make the spec's claims statable. -/
inductive PyError where
  | typeError
  | valueError
  | domainError
  | zeroDivisionError
  | overflowError
  | invalidGeometry
  | invalidMaterial
deriving DecidableEq, Repr

/-- Section type strings used by the source (`"T Section"`, `"L Section"`,
anything else meaning rectangular). -/
inductive SectionType where
  | Rect
  | T
  | L
deriving DecidableEq, Repr

/-- The exact rational value of the IEEE-754 double `math.pi`
(3.141592653589793115997963...). -/
def mathPi : ℚ := 884279719003555 / 281474976710656

/-- Python's `round(x, 6)`.  Python uses round-half-to-even; on every value
this development ever rounds (quarter products of `mathPi` with squared
catalog diameters) no exact tie at the sixth decimal occurs, so round-half-up
agrees with the source. -/
def round6 (x : ℚ) : ℚ := ((round (x * 1000000) : ℤ) : ℚ) / 1000000

/-- The `BAR_DIAMETERS` dict, as a total function mirroring
`BAR_DIAMETERS.get(bar_number, 0)`. -/
def BAR_DIAMETERS (bar_number : ℤ) : ℚ :=
  match bar_number with
  | 3 => 0.375
  | 4 => 0.500
  | 5 => 0.625
  | 6 => 0.750
  | 7 => 0.875
  | 8 => 1.000
  | 9 => 1.128
  | 10 => 1.270
  | 11 => 1.410
  | 14 => 1.693
  | 18 => 2.257
  | _ => 0

/-- `area_of_bar_explicit` from the source. -/
def area_of_bar_explicit (bar_number : ℤ) : ℚ :=
  let d := BAR_DIAMETERS bar_number
  if d ≤ 0 then 0 else round6 ((mathPi / 4) * d ^ 2)

/-- `area_of_bar` from the source. -/
def area_of_bar (bar_number : ℤ) : ℚ :=
  let d := BAR_DIAMETERS bar_number
  if 0 < d then round6 ((mathPi / 4) * d ^ 2) else 0

/-- The catalog of stirrup candidates `bar_options = [3,4,5,6,7,8]`. -/
def bar_options : List ℤ := [3, 4, 5, 6, 7, 8]

/-- The `for bar in bar_options` loop of `select_stirrup_and_spacing`:
first bar whose spacing `s = 2*Av/Ats` satisfies
`s <= min(Ph/8, 12) and s >= 4`, paired with `math.floor(s*2)/2`. -/
def stirrup_scan (Ph Ats : ℚ) : List ℤ → Option (ℤ × ℚ)
  | [] => none
  | bar :: rest =>
    let Av := area_of_bar bar
    if Ats = 0 then stirrup_scan Ph Ats rest
    else
      let s := (2 * Av) / Ats
      if s ≤ min (Ph / 8) 12 ∧ 4 ≤ s then some (bar, ((⌊s * 2⌋ : ℤ) : ℚ) / 2)
      else stirrup_scan Ph Ats rest

/-- The loop of `select_stirrup_and_spacing_dup`: condition
`4 <= s <= min(Ph/8 if Ph>0 else 12.0, 12.0)`, areas via
`area_of_bar_explicit`. -/
def stirrup_scan_dup (Ph Ats : ℚ) : List ℤ → Option (ℤ × ℚ)
  | [] => none
  | bar :: rest =>
    let Av := area_of_bar_explicit bar
    if Ats = 0 then stirrup_scan_dup Ph Ats rest
    else
      let s := (2 * Av) / Ats
      if 4 ≤ s ∧ s ≤ min (if 0 < Ph then Ph / 8 else 12) 12 then
        some (bar, ((⌊s * 2⌋ : ℤ) : ℚ) / 2)
      else stirrup_scan_dup Ph Ats rest

/-- `select_stirrup_and_spacing` from the source. -/
def select_stirrup_and_spacing (Ph Ats : ℚ) : ℤ × ℚ :=
  if Ats ≤ 0 ∨ Ph ≤ 0 then (3, max 4 (min 12 (if 0 < Ph then Ph / 8 else 12)))
  else
    match stirrup_scan Ph Ats bar_options with
    | some r => r
    | none => (3, ((⌊(min (Ph / 8) 12) * 2⌋ : ℤ) : ℚ) / 2)

/-- `select_stirrup_and_spacing_dup` from the source (note: it guards only
`Ats <= 0`, not `Ph <= 0`). -/
def select_stirrup_and_spacing_dup (Ph Ats : ℚ) : ℤ × ℚ :=
  if Ats ≤ 0 then (3, max 4 (min 12 (if 0 < Ph then Ph / 8 else 12)))
  else
    match stirrup_scan_dup Ph Ats bar_options with
    | some r => r
    | none => (3, ((⌊(min (if 0 < Ph then Ph / 8 else 12) 12) * 2⌋ : ℤ) : ℚ) / 2)

/-- The generator expression
`next((bar for bar in range(3, 13) if areaFn(bar) >= required_per_bar), 3)`
used for the mid-bar size; `areaFn` is `area_of_bar` in the rectangular and
L design paths and `area_of_bar_explicit` in the T design path. -/
def mid_bar_scan (areaFn : ℤ → ℚ) (required_per_bar : ℚ) : ℤ :=
  match (List.range' 3 10).find? (fun n => decide (required_per_bar ≤ areaFn (n : ℤ))) with
  | some n => (n : ℤ)
  | none => 3

/-- The dict returned by `compute_section_geometry` (and its `_dup`). -/
structure Geometry where
  Acp : ℚ
  Pcp : ℚ
  Aoh : ℚ
  Ph : ℚ
  Ao : ℚ
  b : ℚ
  h : ℚ
  cover : ℚ
  bf : ℚ
  tf : ℚ
deriving DecidableEq, Repr

/-- `compute_section_geometry` from the source.  A missing `tf` for a T/L
section makes `float(entries_tf)` raise a `TypeError`; there is no other
failure and no positivity validation. -/
def compute_section_geometry (entries_b entries_h : ℚ) (section_type : SectionType)
    (entries_tf : Option ℚ) : Except PyError Geometry :=
  let cover : ℚ := 0.75
  let b := entries_b
  let h := entries_h
  let branch : Except PyError (ℚ × ℚ × ℚ) :=
    match section_type with
    | .T =>
      match entries_tf with
      | none => .error .typeError
      | some tf =>
        let bf := b + 2 * min (4 * tf) (h - tf)
        .ok (b * h + (bf - b) * tf, 2 * h + 2 * b + 2 * (bf - b), bf)
    | .L =>
      match entries_tf with
      | none => .error .typeError
      | some tf =>
        let bf := b + min (4 * tf) (h - tf)
        .ok (b * h + (bf - b) * tf, 2 * h + 2 * b + 2 * (bf - b), bf)
    | .Rect => .ok (h * b, 2 * (h + b), b)
  match branch with
  | .error e => .error e
  | .ok (Acp, Pcp, bf) =>
    let Aoh := max (b - 2 * cover - 0.25) 0 * max (h - 2 * cover - 0.25) 0
    let Ph := 2 * max (b - 2 * cover - 0.25) 0 + 2 * max (h - 2 * cover - 0.25) 0
    let Ao := 0.85 * Aoh
    .ok { Acp := Acp, Pcp := Pcp, Aoh := Aoh, Ph := Ph, Ao := Ao,
          b := b, h := h, cover := cover, bf := bf, tf := entries_tf.getD 0 }

/-- `compute_section_geometry_dup` from the source (verbatim duplicate of
`compute_section_geometry`). -/
def compute_section_geometry_dup (entries_b entries_h : ℚ) (section_type : SectionType)
    (entries_tf : Option ℚ) : Except PyError Geometry :=
  let cover : ℚ := 0.75
  let b := entries_b
  let h := entries_h
  let branch : Except PyError (ℚ × ℚ × ℚ) :=
    match section_type with
    | .T =>
      match entries_tf with
      | none => .error .typeError
      | some tf =>
        let bf := b + 2 * min (4 * tf) (h - tf)
        .ok (b * h + (bf - b) * tf, 2 * h + 2 * b + 2 * (bf - b), bf)
    | .L =>
      match entries_tf with
      | none => .error .typeError
      | some tf =>
        let bf := b + min (4 * tf) (h - tf)
        .ok (b * h + (bf - b) * tf, 2 * h + 2 * b + 2 * (bf - b), bf)
    | .Rect => .ok (h * b, 2 * (h + b), b)
  match branch with
  | .error e => .error e
  | .ok (Acp, Pcp, bf) =>
    let Aoh := max (b - 2 * cover - 0.25) 0 * max (h - 2 * cover - 0.25) 0
    let Ph := 2 * max (b - 2 * cover - 0.25) 0 + 2 * max (h - 2 * cover - 0.25) 0
    let Ao := 0.85 * Aoh
    .ok { Acp := Acp, Pcp := Pcp, Aoh := Aoh, Ph := Ph, Ao := Ao,
          b := b, h := h, cover := cover, bf := bf, tf := entries_tf.getD 0 }

/-- The dict returned by the three `analysis_*` functions. -/
structure AnalysisResults where
  Acp : ℚ
  Pcp : ℚ
  Aoh : ℚ
  Ph : ℚ
  Ao : ℚ
  phiTcr : ℚ
  Tth : ℚ
  safe : Bool
  b_total : Option ℚ := none
  x : Option ℚ := none
deriving DecidableEq, Repr

/-- `analysis_rectangular` from the source.  Note that the returned `Tth`
is `Tcr/4` with `Tcr` unscaled by `phi`. -/
def analysis_rectangular (msqrt : ℚ → ℚ) (b h fc tu_ft : ℚ) :
    Except PyError AnalysisResults :=
  let cover : ℚ := 0.75
  let lamda : ℚ := 1.0
  let phi : ℚ := 0.75
  let Acp := b * h
  let Pcp := 2 * (b + h)
  let Aoh := max (b - 2 * cover) 0 * max (h - 2 * cover) 0
  let Ph := 2 * max (b - 2 * cover) 0 + 2 * max (h - 2 * cover) 0
  let Ao := 0.85 * Aoh
  if fc < 0 then .error .domainError
  else
    let sqrt_fc := msqrt fc
    if Pcp = 0 then .error .zeroDivisionError
    else
      let Tcr := (4 * lamda * sqrt_fc * Acp ^ 2 / Pcp) / (1000 * 12)
      let Tth := Tcr / 4
      let safe := decide (tu_ft < Tth)
      .ok { Acp := Acp, Pcp := Pcp, Aoh := Aoh, Ph := Ph, Ao := Ao,
            phiTcr := phi * Tcr, Tth := Tth, safe := safe }

/-- `analysis_T` from the source. -/
def analysis_T (msqrt : ℚ → ℚ) (b h tf fc tu_ft : ℚ) :
    Except PyError AnalysisResults :=
  let cover : ℚ := 0.75
  let lamda : ℚ := 1.0
  let phi : ℚ := 0.75
  let x := min (h - tf) (4 * tf)
  let b_total := b + 2 * x
  let Acp := b * h + (b_total - b) * tf
  let Pcp := 2 * h + 2 * b + 2 * (b_total - b)
  let Aoh := max (b - 2 * cover) 0 * max (h - 2 * cover) 0
  let Ph := 2 * max (b - 2 * cover) 0 + 2 * max (h - 2 * cover) 0
  let Ao := 0.85 * Aoh
  if fc < 0 then .error .domainError
  else
    let sqrt_fc := msqrt fc
    if Pcp = 0 then .error .zeroDivisionError
    else
      let Tcr := (4 * lamda * sqrt_fc * Acp ^ 2 / Pcp) / (1000 * 12)
      let Tth := Tcr / 4
      let safe := decide (tu_ft < Tth)
      .ok { Acp := Acp, Pcp := Pcp, Aoh := Aoh, Ph := Ph, Ao := Ao,
            phiTcr := phi * Tcr, Tth := Tth, safe := safe,
            b_total := some b_total, x := some x }

/-- `analysis_L` from the source. -/
def analysis_L (msqrt : ℚ → ℚ) (b h tf fc tu_ft : ℚ) :
    Except PyError AnalysisResults :=
  let cover : ℚ := 0.75
  let lamda : ℚ := 1.0
  let phi : ℚ := 0.75
  let x := min (h - tf) (4 * tf)
  let b_total := b + x
  let Acp := b * h + (b_total - b) * tf
  let Pcp := 2 * h + 2 * b + 2 * (b_total - b)
  let Aoh := max (b - 2 * cover) 0 * max (h - 2 * cover) 0
  let Ph := 2 * max (b - 2 * cover) 0 + 2 * max (h - 2 * cover) 0
  let Ao := 0.85 * Aoh
  if fc < 0 then .error .domainError
  else
    let sqrt_fc := msqrt fc
    if Pcp = 0 then .error .zeroDivisionError
    else
      let Tcr := (4 * lamda * sqrt_fc * Acp ^ 2 / Pcp) / (1000 * 12)
      let Tth := Tcr / 4
      let safe := decide (tu_ft < Tth)
      .ok { Acp := Acp, Pcp := Pcp, Aoh := Aoh, Ph := Ph, Ao := Ao,
            phiTcr := phi * Tcr, Tth := Tth, safe := safe,
            b_total := some b_total, x := some x }

/-- The results dict of the three `design_*` functions.  A key absent from
the Python dict is `none` (for optional numeric outputs) or kept at its
falsy default (for the `safe` / `Almin_governs` / `demand_exceeds_capacity`
flags, which downstream code reads with `.get(key, False)`). -/
structure DesignResults where
  phiTcr : ℚ
  Tth : ℚ
  safe : Bool := false
  demand : Option ℚ := none
  Vc : Option ℚ := none
  phiVc : Option ℚ := none
  capacity : Option ℚ := none
  Almin_governs : Bool := false
  Al : Option ℚ := none
  Vn : Option ℚ := none
  Vs : Option ℚ := none
  Ats : Option ℚ := none
  Atsmin : Option ℚ := none
  stirrup_bar : Option ℤ := none
  stirrup_spacing : Option ℚ := none
  req_bottom : Option ℚ := none
  req_mid : Option ℚ := none
  req_top : Option ℚ := none
  num_bottom_bars_needed : Option ℤ := none
  num_top_bars_needed : Option ℤ := none
  mid_bar : Option ℤ := none
  area_mid : Option ℚ := none
  provided_bottom_by_user : Option ℚ := none
  provided_top_by_user : Option ℚ := none
  demand_exceeds_capacity : Bool := false
deriving DecidableEq, Repr

/-- The reinforcement-sizing block that the source repeats verbatim inside
`design_rectangular`, `design_T` and `design_L` (the body of the
`demand <= capacity` branch from `Al = ...` down to the final
`results.update`).  The three copies differ only in which stirrup selector
they call (`selectFn`), which area function the allocation step uses
(`areaAlloc`: `area_of_bar` in the rectangular/L copies,
`area_of_bar_explicit` in the T copy) and which area function prices the
user-provided bars (`areaUser`, `area_of_bar` in all three).  The divisions
guarded by the callers (`fy` and `fyt` nonzero, `Ao > 0`) are checked at
the call site, exactly where CPython would raise `ZeroDivisionError`. -/
def reinforcement_results (selectFn : ℚ → ℚ → ℤ × ℚ) (areaAlloc areaUser : ℤ → ℚ)
    (sqrt_fc b d fy fyt tu_in vu Acp Ph Ao phiTcr Tth demand Vc phiVc capacity : ℚ)
    (bar_l : ℤ) (nl As_flexure nt : ℚ) (bar_top : ℤ) : DesignResults :=
  let phi : ℚ := 0.75
  let Al := (tu_in * Ph) / (phi * 2 * Ao * fy)
  let At_s := tu_in / (phi * 2 * Ao * fy)
  let term1 := (5 * sqrt_fc * Acp / (1000 * fy)) - (At_s * Ph * fyt / fy)
  let term2 := (5 * sqrt_fc * Acp / (1000 * fy)) - ((25 * b / fyt) * Ph * fyt / fy)
  let Almin := max term1 term2
  let governs := decide (Al < Almin)
  let Al2 := if Al < Almin then Almin else Al
  let Vn := phiVc
  let Vs := max 0 ((vu - Vn) / phi)
  let x := if fyt * d ≠ 0 then Vs / (fyt * d) else 0
  let Ats := x + 2 * At_s
  let Atsmin := max (0.75 * sqrt_fc * b / (1000 * fyt)) (50 * b / (1000 * fyt))
  let Ats2 := if Ats < Atsmin then Atsmin else Ats
  let sel := selectFn Ph Ats2
  let req_bottom := As_flexure + Al2 / 3
  let req_mid := Al2 / 3
  let top_bars_area := if 0 < nt ∧ 0 < bar_top then nt * areaAlloc bar_top else 0
  let req_top := top_bars_area + Al2 / 3
  let area_bar_8 := areaAlloc 8
  let area_bar_6 := areaAlloc 6
  let num_bottom := if 0 < area_bar_8 then ⌈req_bottom / area_bar_8⌉ else 0
  let num_top := if 0 < area_bar_6 then ⌈req_top / area_bar_6⌉ else 0
  let required_per_bar := if 0 < req_mid then req_mid / 2 else 0
  let mid_bar := mid_bar_scan areaAlloc required_per_bar
  let area_mid := if mid_bar = 0 then 0 else 2 * areaAlloc mid_bar
  let provided_bottom := nl * areaUser bar_l
  let provided_top := if 0 < nt ∧ 0 < bar_top then nt * areaUser bar_top else 0
  { phiTcr := phiTcr, Tth := Tth, demand := some demand, Vc := some Vc,
    phiVc := some phiVc, capacity := some capacity,
    Almin_governs := governs, Al := some Al2, Vn := some Vn, Vs := some Vs,
    Ats := some Ats2, Atsmin := some Atsmin,
    stirrup_bar := some sel.1, stirrup_spacing := some sel.2,
    req_bottom := some req_bottom, req_mid := some req_mid, req_top := some req_top,
    num_bottom_bars_needed := some num_bottom, num_top_bars_needed := some num_top,
    mid_bar := some mid_bar, area_mid := some area_mid,
    provided_bottom_by_user := some provided_bottom,
    provided_top_by_user := some provided_top }

/-- The threshold/capacity quantities the design functions bind as local
variables (`phiTcr`, `Tth`, `demand`, `Vc`, `phiVc`, `capacity` in the
source, with `phi = 0.75`, `lamda = 1.0`, `d = h - 2.5`,
`tu_in = tu_ft * 12` inlined), factored into named functions so the
control flow of the design glue stays small. -/
def design_phiTcr (sqrt_fc Acp Pcp : ℚ) : ℚ :=
  (4 * 0.75 * 1.0 * sqrt_fc * Acp ^ 2 / Pcp) / (1000 * 12)

/-- `Tth = phiTcr / 4` as computed by the design functions. -/
def design_Tth (sqrt_fc Acp Pcp : ℚ) : ℚ := design_phiTcr sqrt_fc Acp Pcp / 4

/-- `demand = math.sqrt((vu*1000/(b*d))**2 + (tu_in*1000*Ph/(1.7*Aoh**2))**2)`. -/
def design_demand (msqrt : ℚ → ℚ) (b d tu_in Ph Aoh vu : ℚ) : ℚ :=
  msqrt (((vu * 1000) / (b * d)) ^ 2 + (tu_in * 1000 * Ph / (1.7 * Aoh ^ 2)) ^ 2)

/-- `Vc = 2*lamda*sqrt_fc*b*d`. -/
def design_Vc (sqrt_fc b d : ℚ) : ℚ := 2 * 1.0 * sqrt_fc * b * d

/-- `phiVc = phi*Vc/1000`. -/
def design_phiVc (sqrt_fc b d : ℚ) : ℚ := 0.75 * design_Vc sqrt_fc b d / 1000

/-- `capacity = phi*((Vc/(b*d)) + 8*sqrt_fc)`. -/
def design_capacity (sqrt_fc b d : ℚ) : ℚ :=
  0.75 * ((design_Vc sqrt_fc b d / (b * d)) + 8 * sqrt_fc)

/-- `design_rectangular` from the source.  Error points, in source order:
`raise ValueError` when `d <= 0`; `math.sqrt(fc)` domain error when
`fc < 0`; then each float division by zero raises `ZeroDivisionError` at
the line that performs it (`Pcp` in `phiTcr`; `b*d` or `Aoh` in `demand`;
`fy` in `Al`; `fyt` in `term2`).  When `Ao <= 0` the source sets
`Al = At_s = float('inf')`; if `fy` and `fyt` are nonzero that infinity
flows into `math.ceil(req_bottom / area_bar_8)`, which raises
`OverflowError`.  That branch is unreachable: reaching the sizing block
requires the `demand` division by `1.7 * Aoh**2` to have succeeded, so
`Aoh != 0`, and `Ao = 0.85 * Aoh` with `Aoh >= 0` forces `Ao > 0`. -/
def design_rectangular (msqrt : ℚ → ℚ) (b h fc fy fyt tu_ft vu : ℚ)
    (bar_l : ℤ) (nl As_flexure nt : ℚ) (bar_top : ℤ) :
    Except PyError DesignResults :=
  match compute_section_geometry b h SectionType.Rect none with
  | .error e => .error e
  | .ok vals =>
    if h - 2.5 ≤ 0 then .error .valueError
    else if fc < 0 then .error .domainError
    else if vals.Pcp = 0 then .error .zeroDivisionError
    else if tu_ft < design_Tth (msqrt fc) vals.Acp vals.Pcp then
      .ok { phiTcr := design_phiTcr (msqrt fc) vals.Acp vals.Pcp,
            Tth := design_Tth (msqrt fc) vals.Acp vals.Pcp, safe := true }
    else if b * (h - 2.5) = 0 ∨ vals.Aoh = 0 then .error .zeroDivisionError
    else if design_demand msqrt b (h - 2.5) (tu_ft * 12) vals.Ph vals.Aoh vu ≤
        design_capacity (msqrt fc) b (h - 2.5) then
      if 0 < vals.Ao then
        if fy = 0 then .error .zeroDivisionError
        else if fyt = 0 then .error .zeroDivisionError
        else .ok (reinforcement_results select_stirrup_and_spacing
          area_of_bar area_of_bar (msqrt fc) b (h - 2.5) fy fyt (tu_ft * 12) vu
          vals.Acp vals.Ph vals.Ao
          (design_phiTcr (msqrt fc) vals.Acp vals.Pcp)
          (design_Tth (msqrt fc) vals.Acp vals.Pcp)
          (design_demand msqrt b (h - 2.5) (tu_ft * 12) vals.Ph vals.Aoh vu)
          (design_Vc (msqrt fc) b (h - 2.5)) (design_phiVc (msqrt fc) b (h - 2.5))
          (design_capacity (msqrt fc) b (h - 2.5)) bar_l nl As_flexure nt bar_top)
      else
        if fy = 0 then .error .zeroDivisionError
        else if fyt = 0 then .error .zeroDivisionError
        else .error .overflowError
    else
      .ok { phiTcr := design_phiTcr (msqrt fc) vals.Acp vals.Pcp,
            Tth := design_Tth (msqrt fc) vals.Acp vals.Pcp,
            demand := some (design_demand msqrt b (h - 2.5) (tu_ft * 12) vals.Ph vals.Aoh vu),
            Vc := some (design_Vc (msqrt fc) b (h - 2.5)),
            phiVc := some (design_phiVc (msqrt fc) b (h - 2.5)),
            capacity := some (design_capacity (msqrt fc) b (h - 2.5)),
            demand_exceeds_capacity := true }

/-- `design_T` from the source; geometry via `compute_section_geometry_dup`
with a T section, stirrups via `select_stirrup_and_spacing_dup`, allocation
areas via `area_of_bar_explicit` (the user-provided areas still use
`area_of_bar`).  Error points as in `design_rectangular`. -/
def design_T (msqrt : ℚ → ℚ) (b h tf fc fy fyt tu_ft vu : ℚ)
    (bar_l : ℤ) (nl As_flexure nt : ℚ) (bar_top : ℤ) :
    Except PyError DesignResults :=
  match compute_section_geometry_dup b h SectionType.T (some tf) with
  | .error e => .error e
  | .ok vals =>
    if h - 2.5 ≤ 0 then .error .valueError
    else if fc < 0 then .error .domainError
    else if vals.Pcp = 0 then .error .zeroDivisionError
    else if tu_ft < design_Tth (msqrt fc) vals.Acp vals.Pcp then
      .ok { phiTcr := design_phiTcr (msqrt fc) vals.Acp vals.Pcp,
            Tth := design_Tth (msqrt fc) vals.Acp vals.Pcp, safe := true }
    else if b * (h - 2.5) = 0 ∨ vals.Aoh = 0 then .error .zeroDivisionError
    else if design_demand msqrt b (h - 2.5) (tu_ft * 12) vals.Ph vals.Aoh vu ≤
        design_capacity (msqrt fc) b (h - 2.5) then
      if 0 < vals.Ao then
        if fy = 0 then .error .zeroDivisionError
        else if fyt = 0 then .error .zeroDivisionError
        else .ok (reinforcement_results select_stirrup_and_spacing_dup
          area_of_bar_explicit area_of_bar (msqrt fc) b (h - 2.5) fy fyt (tu_ft * 12) vu
          vals.Acp vals.Ph vals.Ao
          (design_phiTcr (msqrt fc) vals.Acp vals.Pcp)
          (design_Tth (msqrt fc) vals.Acp vals.Pcp)
          (design_demand msqrt b (h - 2.5) (tu_ft * 12) vals.Ph vals.Aoh vu)
          (design_Vc (msqrt fc) b (h - 2.5)) (design_phiVc (msqrt fc) b (h - 2.5))
          (design_capacity (msqrt fc) b (h - 2.5)) bar_l nl As_flexure nt bar_top)
      else
        if fy = 0 then .error .zeroDivisionError
        else if fyt = 0 then .error .zeroDivisionError
        else .error .overflowError
    else
      .ok { phiTcr := design_phiTcr (msqrt fc) vals.Acp vals.Pcp,
            Tth := design_Tth (msqrt fc) vals.Acp vals.Pcp,
            demand := some (design_demand msqrt b (h - 2.5) (tu_ft * 12) vals.Ph vals.Aoh vu),
            Vc := some (design_Vc (msqrt fc) b (h - 2.5)),
            phiVc := some (design_phiVc (msqrt fc) b (h - 2.5)),
            capacity := some (design_capacity (msqrt fc) b (h - 2.5)),
            demand_exceeds_capacity := true }

/-- `design_L` from the source; geometry via `compute_section_geometry`
with an L section, stirrups via `select_stirrup_and_spacing`, allocation
areas via `area_of_bar`.  Error points as in `design_rectangular`. -/
def design_L (msqrt : ℚ → ℚ) (b h tf fc fy fyt tu_ft vu : ℚ)
    (bar_l : ℤ) (nl As_flexure nt : ℚ) (bar_top : ℤ) :
    Except PyError DesignResults :=
  match compute_section_geometry b h SectionType.L (some tf) with
  | .error e => .error e
  | .ok vals =>
    if h - 2.5 ≤ 0 then .error .valueError
    else if fc < 0 then .error .domainError
    else if vals.Pcp = 0 then .error .zeroDivisionError
    else if tu_ft < design_Tth (msqrt fc) vals.Acp vals.Pcp then
      .ok { phiTcr := design_phiTcr (msqrt fc) vals.Acp vals.Pcp,
            Tth := design_Tth (msqrt fc) vals.Acp vals.Pcp, safe := true }
    else if b * (h - 2.5) = 0 ∨ vals.Aoh = 0 then .error .zeroDivisionError
    else if design_demand msqrt b (h - 2.5) (tu_ft * 12) vals.Ph vals.Aoh vu ≤
        design_capacity (msqrt fc) b (h - 2.5) then
      if 0 < vals.Ao then
        if fy = 0 then .error .zeroDivisionError
        else if fyt = 0 then .error .zeroDivisionError
        else .ok (reinforcement_results select_stirrup_and_spacing
          area_of_bar area_of_bar (msqrt fc) b (h - 2.5) fy fyt (tu_ft * 12) vu
          vals.Acp vals.Ph vals.Ao
          (design_phiTcr (msqrt fc) vals.Acp vals.Pcp)
          (design_Tth (msqrt fc) vals.Acp vals.Pcp)
          (design_demand msqrt b (h - 2.5) (tu_ft * 12) vals.Ph vals.Aoh vu)
          (design_Vc (msqrt fc) b (h - 2.5)) (design_phiVc (msqrt fc) b (h - 2.5))
          (design_capacity (msqrt fc) b (h - 2.5)) bar_l nl As_flexure nt bar_top)
      else
        if fy = 0 then .error .zeroDivisionError
        else if fyt = 0 then .error .zeroDivisionError
        else .error .overflowError
    else
      .ok { phiTcr := design_phiTcr (msqrt fc) vals.Acp vals.Pcp,
            Tth := design_Tth (msqrt fc) vals.Acp vals.Pcp,
            demand := some (design_demand msqrt b (h - 2.5) (tu_ft * 12) vals.Ph vals.Aoh vu),
            Vc := some (design_Vc (msqrt fc) b (h - 2.5)),
            phiVc := some (design_phiVc (msqrt fc) b (h - 2.5)),
            capacity := some (design_capacity (msqrt fc) b (h - 2.5)),
            demand_exceeds_capacity := true }

/-- The reinforcement output fields that §6's claim C7 requires to be absent
from a demand-exceeds-capacity result. -/
def noReinforcementFields (r : DesignResults) : Prop :=
  r.Al = none ∧ r.Ats = none ∧ r.Atsmin = none ∧ r.stirrup_bar = none ∧
  r.stirrup_spacing = none ∧ r.req_bottom = none ∧ r.req_mid = none ∧
  r.req_top = none ∧ r.num_bottom_bars_needed = none ∧
  r.num_top_bars_needed = none ∧ r.mid_bar = none

/-- Conditions under which a design function whose geometry record is
`vals` reaches its demand-exceeds-capacity branch, spelled with the same
quantities the source computes on the way there.  Shared by the three
design functions, which differ only through `vals`. -/
def ExceedsAt (msqrt : ℚ → ℚ) (b h fc tu_ft vu : ℚ) (vals : Geometry) : Prop :=
  ¬ h - 2.5 ≤ 0 ∧ ¬ fc < 0 ∧ ¬ vals.Pcp = 0 ∧
  ¬ tu_ft < design_Tth (msqrt fc) vals.Acp vals.Pcp ∧
  ¬ (b * (h - 2.5) = 0 ∨ vals.Aoh = 0) ∧
  ¬ design_demand msqrt b (h - 2.5) (tu_ft * 12) vals.Ph vals.Aoh vu ≤
      design_capacity (msqrt fc) b (h - 2.5)

/-- Result of `analysis_rectangular` on b=8, h=12, fc=1, Tu=0 with the
identity square-root oracle (√1 = 1 makes the oracle exact). -/
def raRect1 : AnalysisResults :=
  { Acp := 96, Pcp := 40, Aoh := 273/4, Ph := 34, Ao := 4641/80,
    phiTcr := 36/625, Tth := 12/625, safe := true }

/-- Result of `design_rectangular` on the same inputs (safe early return). -/
def rdRect1 : DesignResults := { phiTcr := 36/625, Tth := 9/625, safe := true }

/-- Result of `analysis_T` on b=8, h=12, tf=1, fc=1, Tu=0, identity oracle. -/
def raT1 : AnalysisResults :=
  { Acp := 104, Pcp := 56, Aoh := 273/4, Ph := 34, Ao := 4641/80,
    phiTcr := 169/3500, Tth := 169/10500, safe := true,
    b_total := some 16, x := some 4 }

/-- Result of `design_T` on the same inputs (safe early return). -/
def rdT1 : DesignResults := { phiTcr := 169/3500, Tth := 169/14000, safe := true }

/-- Result of `analysis_L` on b=8, h=12, tf=1, fc=1, Tu=0, identity oracle. -/
def raL1 : AnalysisResults :=
  { Acp := 100, Pcp := 48, Aoh := 273/4, Ph := 34, Ao := 4641/80,
    phiTcr := 5/96, Tth := 5/288, safe := true,
    b_total := some 12, x := some 4 }

/-- Result of `design_L` on the same inputs (safe early return). -/
def rdL1 : DesignResults := { phiTcr := 5/96, Tth := 5/384, safe := true }

/-- Result of `compute_section_geometry 8 12 Rectangular`. -/
def geomRect8x12 : Geometry :=
  { Acp := 96, Pcp := 40, Aoh := 1025/16, Ph := 33, Ao := 3485/64,
    b := 8, h := 12, cover := 3/4, bf := 8, tf := 0 }

/-- Result of `analysis_rectangular` on b=8, h=12, fc=4, Tu=0, identity
oracle. -/
def raRect4 : AnalysisResults :=
  { Acp := 96, Pcp := 40, Aoh := 273/4, Ph := 34, Ao := 4641/80,
    phiTcr := 144/625, Tth := 48/625, safe := true }

/-- Result of `analysis_T` on b=8, h=12, tf=1, fc=4, Tu=0, identity oracle. -/
def raT4 : AnalysisResults :=
  { Acp := 104, Pcp := 56, Aoh := 273/4, Ph := 34, Ao := 4641/80,
    phiTcr := 169/875, Tth := 169/2625, safe := true,
    b_total := some 16, x := some 4 }

/-- Result of `analysis_L` on b=8, h=12, tf=1, fc=4, Tu=0, identity oracle. -/
def raL4 : AnalysisResults :=
  { Acp := 100, Pcp := 48, Aoh := 273/4, Ph := 34, Ao := 4641/80,
    phiTcr := 5/24, Tth := 5/72, safe := true,
    b_total := some 12, x := some 4 }

/-- The full sizing result all three design functions produce on
b=8, h=12, (tf=1,) fc=4000, fy=fyt=60, Tu=Vu=0, nl=2, bar_l=6,
As_flexure=1/2, nt=0, bar_top=6, with the all-zero square-root oracle. -/
def sizedRun : DesignResults :=
  { phiTcr := 0, Tth := 0, safe := false,
    demand := some 0, Vc := some 0, phiVc := some 0, capacity := some 0,
    Almin_governs := false, Al := some 0, Vn := some 0, Vs := some 0,
    Ats := some (1/150), Atsmin := some (1/150),
    stirrup_bar := some 3, stirrup_spacing := some 4,
    req_bottom := some (1/2), req_mid := some 0, req_top := some 0,
    num_bottom_bars_needed := some 1, num_top_bars_needed := some 0,
    mid_bar := some 3, area_mid := some (110447/500000),
    provided_bottom_by_user := some (220893/250000),
    provided_top_by_user := some 0 }

/-- The demand-exceeds-capacity result all three design functions produce on
b=8, h=12, (tf=1,) fc=0, fy=fyt=60, Tu=1, Vu=0 with the identity oracle. -/
def exceedRun : DesignResults :=
  { phiTcr := 0, Tth := 0,
    demand := some (2630935904256/816644929), Vc := some 0,
    phiVc := some 0, capacity := some 0, demand_exceeds_capacity := true }

/-- Result of `compute_section_geometry_dup 8 12 T (some 1)`. -/
def geomT8x12 : Geometry :=
  { Acp := 104, Pcp := 56, Aoh := 1025/16, Ph := 33, Ao := 3485/64,
    b := 8, h := 12, cover := 3/4, bf := 16, tf := 1 }

/-- Result of `compute_section_geometry 8 12 L (some 1)`. -/
def geomL8x12 : Geometry :=
  { Acp := 100, Pcp := 48, Aoh := 1025/16, Ph := 33, Ao := 3485/64,
    b := 8, h := 12, cover := 3/4, bf := 12, tf := 1 }

theorem area_of_bar_nonneg (n : ℤ) : 0 ≤ area_of_bar n := by
  simp only [area_of_bar]
  split
  · unfold round6
    have h1 : (0 : ℚ) ≤ (mathPi / 4) * BAR_DIAMETERS n ^ 2 * 1000000 := by
      have hpi : (0 : ℚ) ≤ mathPi / 4 := by norm_num [mathPi]
      positivity
    have h2 : (0 : ℤ) ≤ round ((mathPi / 4) * BAR_DIAMETERS n ^ 2 * 1000000) := by
      rw [round_eq]
      refine Int.le_floor.mpr ?_
      push_cast
      linarith
    positivity
  · exact le_refl 0

theorem stirrup_scan_some {Ph Ats : ℚ} {l : List ℤ} {k : ℤ} {sp : ℚ}
    (h : stirrup_scan Ph Ats l = some (k, sp)) :
    Ats ≠ 0 ∧ sp = ((⌊(2 * area_of_bar k) / Ats * 2⌋ : ℤ) : ℚ) / 2 := by
  induction l with
  | nil => simp [stirrup_scan] at h
  | cons bar rest ih =>
    simp only [stirrup_scan] at h
    by_cases hz : Ats = 0
    · rw [if_pos hz] at h
      exact ih h
    · rw [if_neg hz] at h
      by_cases hc : (2 * area_of_bar bar) / Ats ≤ min (Ph / 8) 12 ∧
          4 ≤ (2 * area_of_bar bar) / Ats
      · rw [if_pos hc] at h
        simp only [Option.some.injEq, Prod.mk.injEq] at h
        obtain ⟨hk, hsp⟩ := h
        subst hk
        exact ⟨hz, hsp.symm⟩
      · rw [if_neg hc] at h
        exact ih h

/-- C10: for every integer bar designation, `area_of_bar` and
`area_of_bar_explicit` agree; both compute `round(pi/4*d^2, 6)` for a
positive catalog diameter `d` and `0.0` otherwise, and the designations
with a nonzero diameter are exactly the 11 catalog entries. -/
theorem C10_area_functions_agree (n : ℤ) :
    area_of_bar n = area_of_bar_explicit n ∧
    area_of_bar n = (if 0 < BAR_DIAMETERS n then
      round6 ((mathPi / 4) * BAR_DIAMETERS n ^ 2) else 0) ∧
    (BAR_DIAMETERS n ≠ 0 ↔ n ∈ ([3, 4, 5, 6, 7, 8, 9, 10, 11, 14, 18] : List ℤ)) := by
  refine ⟨?_, rfl, ?_, ?_⟩
  · unfold area_of_bar area_of_bar_explicit
    rcases lt_or_le 0 (BAR_DIAMETERS n) with hd | hd
    · rw [if_pos hd, if_neg (not_le.mpr hd)]
    · rw [if_neg (not_lt.mpr hd), if_pos hd]
  · intro hne
    unfold BAR_DIAMETERS at hne
    split at hne
    all_goals simp_all
  · intro hmem
    fin_cases hmem <;> norm_num [BAR_DIAMETERS]

/-- C6 fails on the code: with Ph = -8 and Ats = 1 (so Ph ≤ 0), the primary
selector returns spacing 12, not clamp(Ph/8, 4, 12) = 4; and the duplicate
selector with Ats = 0.03 > 0 does not early-return at all, producing
spacing 7. -/
theorem C6_counterexample :
    select_stirrup_and_spacing (-8) 1 = (3, 12) ∧
    max 4 (min 12 ((-8 : ℚ) / 8)) = 4 ∧
    select_stirrup_and_spacing_dup (-8) (3/100) = (3, 7) ∧
    (12 : ℚ) ≠ 4 ∧ (7 : ℚ) ≠ 4 := by
  refine ⟨?_, by norm_num, ?_, by norm_num, by norm_num⟩
  · norm_num [select_stirrup_and_spacing]
  · norm_num [select_stirrup_and_spacing_dup, stirrup_scan_dup, bar_options,
      area_of_bar_explicit, BAR_DIAMETERS, round6, mathPi, round_eq,
      Int.floor_eq_iff]

/-- C6 (amended): on Ats ≤ 0, and for the primary selector also on Ph ≤ 0,
the selector returns bar 3 with spacing max(4, min(12, Ph/8)) when Ph > 0
and spacing 12 when Ph ≤ 0 (the claimed clamp(Ph/8, 4, 12) therefore holds
only when Ph > 0); the duplicate selector has no Ph ≤ 0 early return at
all and instead runs its scan with the spacing cap taken as 12. -/
theorem C6_amended (Ph Ats : ℚ) :
    (Ats ≤ 0 ∨ Ph ≤ 0 →
      select_stirrup_and_spacing Ph Ats =
        (3, if 0 < Ph then max 4 (min 12 (Ph / 8)) else 12)) ∧
    (Ats ≤ 0 →
      select_stirrup_and_spacing_dup Ph Ats =
        (3, if 0 < Ph then max 4 (min 12 (Ph / 8)) else 12)) := by
  constructor
  · intro hcond
    unfold select_stirrup_and_spacing
    rw [if_pos hcond]
    by_cases hp : 0 < Ph
    · norm_num [hp]
    · norm_num [hp]
  · intro hcond
    unfold select_stirrup_and_spacing_dup
    rw [if_pos hcond]
    by_cases hp : 0 < Ph
    · norm_num [hp]
    · norm_num [hp]

/-- Witness for the amended C6 at Ph = -8, Ats = -1: both selectors
early-return bar 3 with spacing 12. -/
theorem C6_amended_witness :
    select_stirrup_and_spacing (-8) (-1) = (3, 12) ∧
    select_stirrup_and_spacing_dup (-8) (-1) = (3, 12) := by
  constructor
  · have hth := (C6_amended (-8) (-1)).1 (Or.inl (by norm_num))
    simpa using hth
  · have hth := (C6_amended (-8) (-1)).2 (by norm_num)
    simpa using hth

/-- C5 fails on the code: with Ph = 96 fixed, raising Ats from
110447/2000000 (which makes bar 3 give spacing exactly 4) to
110447/1950000 (which pushes bar 3 below the lower spacing bound, so the
scan accepts bar 4 instead) raises the selected spacing from 4 to 6.5. -/
theorem C5_counterexample :
    (0 : ℚ) < 110447/2000000 ∧ (110447/2000000 : ℚ) < 110447/1950000 ∧
    select_stirrup_and_spacing 96 (110447/2000000) = (3, 4) ∧
    select_stirrup_and_spacing 96 (110447/1950000) = (4, 13/2) ∧
    ¬ ((13 : ℚ) / 2 ≤ 4) := by
  refine ⟨by norm_num, by norm_num, ?_, ?_, by norm_num⟩
  · norm_num [select_stirrup_and_spacing, stirrup_scan, bar_options, area_of_bar,
      BAR_DIAMETERS, round6, mathPi, round_eq, Int.floor_eq_iff]
  · norm_num [select_stirrup_and_spacing, stirrup_scan, bar_options, area_of_bar,
      BAR_DIAMETERS, round6, mathPi, round_eq, Int.floor_eq_iff]

/-- C5 (amended): the spacing is antitone in Ats as long as the scan accepts
the same catalog bar for both inputs; in general a larger Ats can move the
scan to a larger bar (or to the fallback) and strictly increase the selected
spacing, as the counterexample shows. -/
theorem C5_amended (Ph a1 a2 : ℚ) (k : ℤ) (sp1 sp2 : ℚ)
    (h0 : 0 < a1) (h12 : a1 ≤ a2) (hph : 0 < Ph)
    (hs1 : stirrup_scan Ph a1 bar_options = some (k, sp1))
    (hs2 : stirrup_scan Ph a2 bar_options = some (k, sp2)) :
    select_stirrup_and_spacing Ph a1 = (k, sp1) ∧
    select_stirrup_and_spacing Ph a2 = (k, sp2) ∧
    sp2 ≤ sp1 := by
  have h02 : 0 < a2 := lt_of_lt_of_le h0 h12
  refine ⟨?_, ?_, ?_⟩
  · unfold select_stirrup_and_spacing
    rw [if_neg (by push_neg; exact ⟨h0, hph⟩), hs1]
  · unfold select_stirrup_and_spacing
    rw [if_neg (by push_neg; exact ⟨h02, hph⟩), hs2]
  · obtain ⟨hne1, hsp1⟩ := stirrup_scan_some hs1
    obtain ⟨hne2, hsp2⟩ := stirrup_scan_some hs2
    subst hsp1
    subst hsp2
    have hAv : (0 : ℚ) ≤ 2 * area_of_bar k := by
      linarith [area_of_bar_nonneg k]
    have hx : (2 * area_of_bar k) / a2 * 2 ≤ (2 * area_of_bar k) / a1 * 2 := by
      gcongr
    have hfl : ⌊(2 * area_of_bar k) / a2 * 2⌋ ≤ ⌊(2 * area_of_bar k) / a1 * 2⌋ :=
      Int.floor_le_floor hx
    have hflq : ((⌊(2 * area_of_bar k) / a2 * 2⌋ : ℤ) : ℚ) ≤
        ((⌊(2 * area_of_bar k) / a1 * 2⌋ : ℤ) : ℚ) := by
      exact_mod_cast hfl
    linarith

/-- Witness for the amended C5: Ph = 96, both Ats values accepted at bar 3,
spacing drops from 8 to 4. -/
theorem C5_amended_witness :
    select_stirrup_and_spacing 96 (110447/4000000) = (3, 8) ∧
    select_stirrup_and_spacing 96 (110447/2000000) = (3, 4) ∧
    (4 : ℚ) ≤ 8 := by
  have hth := C5_amended 96 (110447/4000000) (110447/2000000) 3 8 4
    (by norm_num) (by norm_num) (by norm_num)
    (by norm_num [stirrup_scan, bar_options, area_of_bar, BAR_DIAMETERS,
      round6, mathPi, round_eq, Int.floor_eq_iff])
    (by norm_num [stirrup_scan, bar_options, area_of_bar, BAR_DIAMETERS,
      round6, mathPi, round_eq, Int.floor_eq_iff])
  exact ⟨hth.1, hth.2.1, hth.2.2⟩

/-- C3 fails on the code: `compute_section_geometry` performs no positivity
validation (with b = -1 it happily returns a geometry record), and a missing
tf for a T section raises python's untyped `TypeError` from `float(None)`,
not a typed InvalidGeometry. -/
theorem C3_counterexample :
    compute_section_geometry (-1) 12 SectionType.Rect none =
      .ok { Acp := -12, Pcp := 22, Aoh := 0, Ph := 41/2, Ao := 0,
            b := -1, h := 12, cover := 3/4, bf := -1, tf := 0 } ∧
    compute_section_geometry 8 12 SectionType.T none = .error .typeError ∧
    PyError.typeError ≠ PyError.invalidGeometry := by
  refine ⟨?_, rfl, by decide⟩
  norm_num [compute_section_geometry, Geometry.mk.injEq]

/-- C3 (amended): `compute_section_geometry` fails only when the section
type is T or L and tf is missing, and then with the untyped `TypeError`
rather than a typed InvalidGeometry; for every other input, including
non-positive b or h, it returns a geometry record. -/
theorem C3_amended (b h tf : ℚ) (tf? : Option ℚ) :
    compute_section_geometry b h SectionType.T none = .error .typeError ∧
    compute_section_geometry b h SectionType.L none = .error .typeError ∧
    (∃ g, compute_section_geometry b h SectionType.Rect tf? = .ok g) ∧
    (∃ g, compute_section_geometry b h SectionType.T (some tf) = .ok g) ∧
    (∃ g, compute_section_geometry b h SectionType.L (some tf) = .ok g) := by
  exact ⟨rfl, rfl, ⟨_, rfl⟩, ⟨_, rfl⟩, ⟨_, rfl⟩⟩

/-- C2: on b=8, h=12, fc=4000, Tu=0 the rectangular analysis returns
Acp=96, Pcp=40, Aoh=68.25, Ph=34, Ao=58.0125, Tth within 0.0001 of 1.2143,
phiTcr within 0.0001 of 3.6429, and safe=true, for any square-root oracle
value in [63.245, 63.246] — an interval that provably brackets √4000, as
the last two conjuncts certify. -/
theorem C2_scenarioA (msqrt : ℚ → ℚ)
    (h1 : 12649/200 ≤ msqrt 4000) (h2 : msqrt 4000 ≤ 31623/500) :
    ∃ r, analysis_rectangular msqrt 8 12 4000 0 = .ok r ∧
      r.Acp = 96 ∧ r.Pcp = 40 ∧ r.Aoh = 273/4 ∧ r.Ph = 34 ∧ r.Ao = 4641/80 ∧
      |r.Tth - 12143/10000| < 1/10000 ∧ |r.phiTcr - 36429/10000| < 1/10000 ∧
      r.safe = true ∧
      (12649/200 : ℚ) ^ 2 < 4000 ∧ (4000 : ℚ) < (31623/500) ^ 2 := by
  refine ⟨{ Acp := 96, Pcp := 40, Aoh := 273/4, Ph := 34, Ao := 4641/80,
            phiTcr := 36/625 * msqrt 4000, Tth := 12/625 * msqrt 4000,
            safe := true }, ?_, rfl, rfl, rfl, rfl, rfl, ?_, ?_, rfl,
          by norm_num, by norm_num⟩
  · simp only [analysis_rectangular]
    rw [if_neg (by norm_num : ¬ ((4000 : ℚ) < 0)),
      if_neg (by norm_num : ¬ ((2 : ℚ) * (8 + 12) = 0))]
    simp only [Except.ok.injEq, AnalysisResults.mk.injEq, decide_eq_true_eq]
    norm_num
    refine ⟨by ring, by ring, ?_⟩
    linarith
  · rw [abs_sub_lt_iff]
    constructor <;> nlinarith
  · rw [abs_sub_lt_iff]
    constructor <;> nlinarith

/-- Witness for C2 with the concrete oracle value 63.245. -/
theorem C2_scenarioA_witness :
    ∃ r, analysis_rectangular (fun _ => 12649/200) 8 12 4000 0 = .ok r ∧
      r.Acp = 96 ∧ r.Pcp = 40 ∧ r.Aoh = 273/4 ∧ r.Ph = 34 ∧ r.Ao = 4641/80 ∧
      |r.Tth - 12143/10000| < 1/10000 ∧ |r.phiTcr - 36429/10000| < 1/10000 ∧
      r.safe = true ∧
      (12649/200 : ℚ) ^ 2 < 4000 ∧ (4000 : ℚ) < (31623/500) ^ 2 :=
  C2_scenarioA (fun _ => 12649/200) (by norm_num) (by norm_num)

theorem compute_section_geometry_ok_elim (eb eh : ℚ) (st : SectionType)
    (tf? : Option ℚ) {g : Geometry}
    (hg : compute_section_geometry eb eh st tf? = .ok g) :
    g.Aoh = max (eb - 2 * 0.75 - 0.25) 0 * max (eh - 2 * 0.75 - 0.25) 0 ∧
    g.Ph = 2 * max (eb - 2 * 0.75 - 0.25) 0 + 2 * max (eh - 2 * 0.75 - 0.25) 0 ∧
    g.Ao = 0.85 * g.Aoh := by
  cases st <;> cases tf? <;>
    simp only [compute_section_geometry, Except.ok.injEq] at hg <;>
    first
      | (subst hg; exact ⟨rfl, rfl, rfl⟩)
      | exact absurd hg (by simp)

theorem compute_section_geometry_dup_ok_elim (eb eh : ℚ) (st : SectionType)
    (tf? : Option ℚ) {g : Geometry}
    (hg : compute_section_geometry_dup eb eh st tf? = .ok g) :
    g.Aoh = max (eb - 2 * 0.75 - 0.25) 0 * max (eh - 2 * 0.75 - 0.25) 0 ∧
    g.Ph = 2 * max (eb - 2 * 0.75 - 0.25) 0 + 2 * max (eh - 2 * 0.75 - 0.25) 0 ∧
    g.Ao = 0.85 * g.Aoh := by
  cases st <;> cases tf? <;>
    simp only [compute_section_geometry_dup, Except.ok.injEq] at hg <;>
    first
      | (subst hg; exact ⟨rfl, rfl, rfl⟩)
      | exact absurd hg (by simp)

theorem analysis_rectangular_ok_elim (msqrt : ℚ → ℚ) (b h fc tu_ft : ℚ)
    {ra : AnalysisResults}
    (hra : analysis_rectangular msqrt b h fc tu_ft = .ok ra) :
    ra.Acp = b * h ∧ ra.Pcp = 2 * (b + h) ∧
    ra.Aoh = max (b - 2 * 0.75) 0 * max (h - 2 * 0.75) 0 ∧
    ra.Ph = 2 * max (b - 2 * 0.75) 0 + 2 * max (h - 2 * 0.75) 0 ∧
    ra.Ao = 0.85 * ra.Aoh ∧
    ra.phiTcr = 0.75 * ((4 * 1.0 * msqrt fc * ra.Acp ^ 2 / ra.Pcp) / (1000 * 12)) ∧
    ra.Tth = ((4 * 1.0 * msqrt fc * ra.Acp ^ 2 / ra.Pcp) / (1000 * 12)) / 4 := by
  simp only [analysis_rectangular] at hra
  split_ifs at hra
  simp only [Except.ok.injEq] at hra
  subst hra
  exact ⟨rfl, rfl, rfl, rfl, rfl, rfl, rfl⟩

theorem analysis_T_ok_elim (msqrt : ℚ → ℚ) (b h tf fc tu_ft : ℚ)
    {ra : AnalysisResults}
    (hra : analysis_T msqrt b h tf fc tu_ft = .ok ra) :
    ra.Acp = b * h + (b + 2 * min (h - tf) (4 * tf) - b) * tf ∧
    ra.Pcp = 2 * h + 2 * b + 2 * (b + 2 * min (h - tf) (4 * tf) - b) ∧
    ra.Aoh = max (b - 2 * 0.75) 0 * max (h - 2 * 0.75) 0 ∧
    ra.Ph = 2 * max (b - 2 * 0.75) 0 + 2 * max (h - 2 * 0.75) 0 ∧
    ra.Ao = 0.85 * ra.Aoh ∧
    ra.phiTcr = 0.75 * ((4 * 1.0 * msqrt fc * ra.Acp ^ 2 / ra.Pcp) / (1000 * 12)) ∧
    ra.Tth = ((4 * 1.0 * msqrt fc * ra.Acp ^ 2 / ra.Pcp) / (1000 * 12)) / 4 := by
  simp only [analysis_T] at hra
  split_ifs at hra
  simp only [Except.ok.injEq] at hra
  subst hra
  exact ⟨rfl, rfl, rfl, rfl, rfl, rfl, rfl⟩

theorem analysis_L_ok_elim (msqrt : ℚ → ℚ) (b h tf fc tu_ft : ℚ)
    {ra : AnalysisResults}
    (hra : analysis_L msqrt b h tf fc tu_ft = .ok ra) :
    ra.Acp = b * h + (b + min (h - tf) (4 * tf) - b) * tf ∧
    ra.Pcp = 2 * h + 2 * b + 2 * (b + min (h - tf) (4 * tf) - b) ∧
    ra.Aoh = max (b - 2 * 0.75) 0 * max (h - 2 * 0.75) 0 ∧
    ra.Ph = 2 * max (b - 2 * 0.75) 0 + 2 * max (h - 2 * 0.75) 0 ∧
    ra.Ao = 0.85 * ra.Aoh ∧
    ra.phiTcr = 0.75 * ((4 * 1.0 * msqrt fc * ra.Acp ^ 2 / ra.Pcp) / (1000 * 12)) ∧
    ra.Tth = ((4 * 1.0 * msqrt fc * ra.Acp ^ 2 / ra.Pcp) / (1000 * 12)) / 4 := by
  simp only [analysis_L] at hra
  split_ifs at hra
  simp only [Except.ok.injEq] at hra
  subst hra
  exact ⟨rfl, rfl, rfl, rfl, rfl, rfl, rfl⟩

theorem reinforcement_results_fields
    (selectFn : ℚ → ℚ → ℤ × ℚ) (areaAlloc areaUser : ℤ → ℚ)
    (sqrt_fc b d fy fyt tu_in vu Acp Ph Ao phiTcr Tth demand Vc phiVc capacity : ℚ)
    (bar_l : ℤ) (nl asf nt : ℚ) (bar_top : ℤ)
    (h8 : 0 < areaAlloc 8) (h6 : 0 < areaAlloc 6) :
    ∃ al,
      (reinforcement_results selectFn areaAlloc areaUser sqrt_fc b d fy fyt tu_in vu
        Acp Ph Ao phiTcr Tth demand Vc phiVc capacity bar_l nl asf nt bar_top).Al = some al ∧
      (reinforcement_results selectFn areaAlloc areaUser sqrt_fc b d fy fyt tu_in vu
        Acp Ph Ao phiTcr Tth demand Vc phiVc capacity bar_l nl asf nt bar_top).req_bottom =
        some (asf + al / 3) ∧
      (reinforcement_results selectFn areaAlloc areaUser sqrt_fc b d fy fyt tu_in vu
        Acp Ph Ao phiTcr Tth demand Vc phiVc capacity bar_l nl asf nt bar_top).req_mid =
        some (al / 3) ∧
      (reinforcement_results selectFn areaAlloc areaUser sqrt_fc b d fy fyt tu_in vu
        Acp Ph Ao phiTcr Tth demand Vc phiVc capacity bar_l nl asf nt bar_top).req_top =
        some ((if 0 < nt ∧ 0 < bar_top then nt * areaAlloc bar_top else 0) + al / 3) ∧
      (reinforcement_results selectFn areaAlloc areaUser sqrt_fc b d fy fyt tu_in vu
        Acp Ph Ao phiTcr Tth demand Vc phiVc capacity bar_l nl asf nt bar_top).num_bottom_bars_needed =
        some ⌈(asf + al / 3) / areaAlloc 8⌉ ∧
      (reinforcement_results selectFn areaAlloc areaUser sqrt_fc b d fy fyt tu_in vu
        Acp Ph Ao phiTcr Tth demand Vc phiVc capacity bar_l nl asf nt bar_top).num_top_bars_needed =
        some ⌈((if 0 < nt ∧ 0 < bar_top then nt * areaAlloc bar_top else 0) + al / 3) / areaAlloc 6⌉ ∧
      (reinforcement_results selectFn areaAlloc areaUser sqrt_fc b d fy fyt tu_in vu
        Acp Ph Ao phiTcr Tth demand Vc phiVc capacity bar_l nl asf nt bar_top).safe = false ∧
      (reinforcement_results selectFn areaAlloc areaUser sqrt_fc b d fy fyt tu_in vu
        Acp Ph Ao phiTcr Tth demand Vc phiVc capacity bar_l nl asf nt bar_top).demand_exceeds_capacity = false ∧
      (reinforcement_results selectFn areaAlloc areaUser sqrt_fc b d fy fyt tu_in vu
        Acp Ph Ao phiTcr Tth demand Vc phiVc capacity bar_l nl asf nt bar_top).phiTcr = phiTcr ∧
      (reinforcement_results selectFn areaAlloc areaUser sqrt_fc b d fy fyt tu_in vu
        Acp Ph Ao phiTcr Tth demand Vc phiVc capacity bar_l nl asf nt bar_top).Tth = Tth := by
  simp only [reinforcement_results]
  refine ⟨_, rfl, rfl, rfl, rfl, ?_, ?_, trivial, trivial, trivial, trivial⟩
  · rw [if_pos h8]
  · rw [if_pos h6]

set_option maxHeartbeats 2000000 in
theorem design_rectangular_ok_elim (msqrt : ℚ → ℚ) (b h fc fy fyt tu_ft vu : ℚ)
    (bar_l : ℤ) (nl asf nt : ℚ) (bar_top : ℤ) {rd : DesignResults}
    (hrd : design_rectangular msqrt b h fc fy fyt tu_ft vu bar_l nl asf nt bar_top = .ok rd) :
    ∃ g, compute_section_geometry b h SectionType.Rect none = .ok g ∧
      rd.phiTcr = design_phiTcr (msqrt fc) g.Acp g.Pcp ∧
      rd.Tth = rd.phiTcr / 4 ∧
      ((rd.safe = true ∧ rd.demand_exceeds_capacity = false ∧ noReinforcementFields rd) ∨
       (rd.safe = false ∧ rd.demand_exceeds_capacity = true ∧ noReinforcementFields rd) ∨
       (rd.safe = false ∧ rd.demand_exceeds_capacity = false ∧ fy ≠ 0 ∧ fyt ≠ 0 ∧
        ∃ al, rd.Al = some al ∧
          rd.req_bottom = some (asf + al / 3) ∧
          rd.req_mid = some (al / 3) ∧
          rd.req_top = some ((if 0 < nt ∧ 0 < bar_top then nt * area_of_bar bar_top else 0) + al / 3) ∧
          rd.num_bottom_bars_needed = some ⌈(asf + al / 3) / area_of_bar 8⌉ ∧
          rd.num_top_bars_needed = some
            ⌈((if 0 < nt ∧ 0 < bar_top then nt * area_of_bar bar_top else 0) + al / 3) / area_of_bar 6⌉)) := by
  rw [design_rectangular.eq_def] at hrd
  split at hrd
  next e heq => exact absurd heq (by simp [compute_section_geometry])
  next vals heq =>
    refine ⟨vals, heq, ?_⟩
    split at hrd
    next => exact Except.noConfusion hrd
    next hd =>
      split at hrd
      next => exact Except.noConfusion hrd
      next hfc =>
        split at hrd
        next => exact Except.noConfusion hrd
        next hpcp =>
          split at hrd
          next hsafe =>
            simp only [Except.ok.injEq] at hrd
            subst hrd
            exact ⟨rfl, rfl, Or.inl ⟨rfl, rfl, rfl, rfl, rfl, rfl, rfl, rfl, rfl, rfl, rfl, rfl, rfl⟩⟩
          next hsafe =>
            split at hrd
            next => exact Except.noConfusion hrd
            next haoh =>
              split at hrd
              next hdem =>
                split at hrd
                next hao =>
                  split at hrd
                  next => exact Except.noConfusion hrd
                  next hfy =>
                    split at hrd
                    next => exact Except.noConfusion hrd
                    next hfyt =>
                      simp only [Except.ok.injEq] at hrd
                      subst hrd
                      obtain ⟨al, hAl, hrb, hrm, hrt, hnb, hnt, hsafe2, hflag2, hphi2, htth2⟩ :=
                        reinforcement_results_fields select_stirrup_and_spacing
                          area_of_bar area_of_bar (msqrt fc) b (h - 2.5) fy fyt (tu_ft * 12) vu
                          vals.Acp vals.Ph vals.Ao
                          (design_phiTcr (msqrt fc) vals.Acp vals.Pcp)
                          (design_Tth (msqrt fc) vals.Acp vals.Pcp)
                          (design_demand msqrt b (h - 2.5) (tu_ft * 12) vals.Ph vals.Aoh vu)
                          (design_Vc (msqrt fc) b (h - 2.5)) (design_phiVc (msqrt fc) b (h - 2.5))
                          (design_capacity (msqrt fc) b (h - 2.5)) bar_l nl asf nt bar_top
                          (by norm_num [area_of_bar, BAR_DIAMETERS, round6, mathPi, round_eq])
                          (by norm_num [area_of_bar, BAR_DIAMETERS, round6, mathPi, round_eq])
                      refine ⟨hphi2, ?_, Or.inr (Or.inr
                        ⟨hsafe2, hflag2, hfy, hfyt, al, hAl, hrb, hrm, hrt, hnb, hnt⟩)⟩
                      rw [htth2, hphi2]
                      rfl
                next hao =>
                  split at hrd
                  next => exact Except.noConfusion hrd
                  next =>
                    split at hrd
                    next => exact Except.noConfusion hrd
                    next => exact Except.noConfusion hrd
              next hdem =>
                simp only [Except.ok.injEq] at hrd
                subst hrd
                exact ⟨rfl, rfl, Or.inr (Or.inl
                  ⟨rfl, rfl, rfl, rfl, rfl, rfl, rfl, rfl, rfl, rfl, rfl, rfl, rfl⟩)⟩

set_option maxHeartbeats 2000000 in
theorem design_rectangular_error_elim (msqrt : ℚ → ℚ) (b h fc fy fyt tu_ft vu : ℚ)
    (bar_l : ℤ) (nl asf nt : ℚ) (bar_top : ℤ) {e : PyError}
    (hrd : design_rectangular msqrt b h fc fy fyt tu_ft vu bar_l nl asf nt bar_top = .error e) :
    e = .valueError ∨ e = .domainError ∨ e = .zeroDivisionError := by
  rw [design_rectangular.eq_def] at hrd
  split at hrd
  next e2 heq => exact absurd heq (by simp [compute_section_geometry])
  next vals heq =>
    obtain ⟨hAoh_eq, hPh_eq, hAo_eq⟩ := compute_section_geometry_ok_elim b h _ _ heq
    split at hrd
    next hd =>
      simp only [Except.error.injEq] at hrd
      exact Or.inl hrd.symm
    next hd =>
      split at hrd
      next hfc =>
        simp only [Except.error.injEq] at hrd
        exact Or.inr (Or.inl hrd.symm)
      next hfc =>
        split at hrd
        next hpcp =>
          simp only [Except.error.injEq] at hrd
          exact Or.inr (Or.inr hrd.symm)
        next hpcp =>
          split at hrd
          next hsafe => exact Except.noConfusion hrd
          next hsafe =>
            split at hrd
            next haoh =>
              simp only [Except.error.injEq] at hrd
              exact Or.inr (Or.inr hrd.symm)
            next haoh =>
              split at hrd
              next hdem =>
                split at hrd
                next hao =>
                  split at hrd
                  next hfy =>
                    simp only [Except.error.injEq] at hrd
                    exact Or.inr (Or.inr hrd.symm)
                  next hfy =>
                    split at hrd
                    next hfyt =>
                      simp only [Except.error.injEq] at hrd
                      exact Or.inr (Or.inr hrd.symm)
                    next hfyt => exact Except.noConfusion hrd
                next hao =>
                  exfalso
                  push_neg at haoh
                  obtain ⟨hbd, hA0⟩ := haoh
                  have h0 : (0 : ℚ) ≤ vals.Aoh := by
                    rw [hAoh_eq]
                    exact mul_nonneg (le_max_right _ _) (le_max_right _ _)
                  have h1 : (0 : ℚ) < vals.Aoh := lt_of_le_of_ne h0 (Ne.symm hA0)
                  have h2 : (0 : ℚ) < vals.Ao := by
                    rw [hAo_eq]
                    linarith
                  exact hao h2
              next hdem => exact Except.noConfusion hrd

set_option maxHeartbeats 2000000 in
theorem design_T_ok_elim (msqrt : ℚ → ℚ) (b h tf fc fy fyt tu_ft vu : ℚ)
    (bar_l : ℤ) (nl asf nt : ℚ) (bar_top : ℤ) {rd : DesignResults}
    (hrd : design_T msqrt b h tf fc fy fyt tu_ft vu bar_l nl asf nt bar_top = .ok rd) :
    ∃ g, compute_section_geometry_dup b h SectionType.T (some tf) = .ok g ∧
      rd.phiTcr = design_phiTcr (msqrt fc) g.Acp g.Pcp ∧
      rd.Tth = rd.phiTcr / 4 ∧
      ((rd.safe = true ∧ rd.demand_exceeds_capacity = false ∧ noReinforcementFields rd) ∨
       (rd.safe = false ∧ rd.demand_exceeds_capacity = true ∧ noReinforcementFields rd) ∨
       (rd.safe = false ∧ rd.demand_exceeds_capacity = false ∧ fy ≠ 0 ∧ fyt ≠ 0 ∧
        ∃ al, rd.Al = some al ∧
          rd.req_bottom = some (asf + al / 3) ∧
          rd.req_mid = some (al / 3) ∧
          rd.req_top = some ((if 0 < nt ∧ 0 < bar_top then nt * area_of_bar_explicit bar_top else 0) + al / 3) ∧
          rd.num_bottom_bars_needed = some ⌈(asf + al / 3) / area_of_bar_explicit 8⌉ ∧
          rd.num_top_bars_needed = some
            ⌈((if 0 < nt ∧ 0 < bar_top then nt * area_of_bar_explicit bar_top else 0) + al / 3) / area_of_bar_explicit 6⌉)) := by
  rw [design_T.eq_def] at hrd
  split at hrd
  next e heq => exact absurd heq (by simp [compute_section_geometry_dup])
  next vals heq =>
    refine ⟨vals, heq, ?_⟩
    split at hrd
    next => exact Except.noConfusion hrd
    next hd =>
      split at hrd
      next => exact Except.noConfusion hrd
      next hfc =>
        split at hrd
        next => exact Except.noConfusion hrd
        next hpcp =>
          split at hrd
          next hsafe =>
            simp only [Except.ok.injEq] at hrd
            subst hrd
            exact ⟨rfl, rfl, Or.inl ⟨rfl, rfl, rfl, rfl, rfl, rfl, rfl, rfl, rfl, rfl, rfl, rfl, rfl⟩⟩
          next hsafe =>
            split at hrd
            next => exact Except.noConfusion hrd
            next haoh =>
              split at hrd
              next hdem =>
                split at hrd
                next hao =>
                  split at hrd
                  next => exact Except.noConfusion hrd
                  next hfy =>
                    split at hrd
                    next => exact Except.noConfusion hrd
                    next hfyt =>
                      simp only [Except.ok.injEq] at hrd
                      subst hrd
                      obtain ⟨al, hAl, hrb, hrm, hrt, hnb, hnt, hsafe2, hflag2, hphi2, htth2⟩ :=
                        reinforcement_results_fields select_stirrup_and_spacing_dup
                          area_of_bar_explicit area_of_bar (msqrt fc) b (h - 2.5) fy fyt (tu_ft * 12) vu
                          vals.Acp vals.Ph vals.Ao
                          (design_phiTcr (msqrt fc) vals.Acp vals.Pcp)
                          (design_Tth (msqrt fc) vals.Acp vals.Pcp)
                          (design_demand msqrt b (h - 2.5) (tu_ft * 12) vals.Ph vals.Aoh vu)
                          (design_Vc (msqrt fc) b (h - 2.5)) (design_phiVc (msqrt fc) b (h - 2.5))
                          (design_capacity (msqrt fc) b (h - 2.5)) bar_l nl asf nt bar_top
                          (by norm_num [area_of_bar_explicit, BAR_DIAMETERS, round6, mathPi, round_eq])
                          (by norm_num [area_of_bar_explicit, BAR_DIAMETERS, round6, mathPi, round_eq])
                      refine ⟨hphi2, ?_, Or.inr (Or.inr
                        ⟨hsafe2, hflag2, hfy, hfyt, al, hAl, hrb, hrm, hrt, hnb, hnt⟩)⟩
                      rw [htth2, hphi2]
                      rfl
                next hao =>
                  split at hrd
                  next => exact Except.noConfusion hrd
                  next =>
                    split at hrd
                    next => exact Except.noConfusion hrd
                    next => exact Except.noConfusion hrd
              next hdem =>
                simp only [Except.ok.injEq] at hrd
                subst hrd
                exact ⟨rfl, rfl, Or.inr (Or.inl
                  ⟨rfl, rfl, rfl, rfl, rfl, rfl, rfl, rfl, rfl, rfl, rfl, rfl, rfl⟩)⟩

set_option maxHeartbeats 2000000 in
theorem design_T_error_elim (msqrt : ℚ → ℚ) (b h tf fc fy fyt tu_ft vu : ℚ)
    (bar_l : ℤ) (nl asf nt : ℚ) (bar_top : ℤ) {e : PyError}
    (hrd : design_T msqrt b h tf fc fy fyt tu_ft vu bar_l nl asf nt bar_top = .error e) :
    e = .valueError ∨ e = .domainError ∨ e = .zeroDivisionError := by
  rw [design_T.eq_def] at hrd
  split at hrd
  next e2 heq => exact absurd heq (by simp [compute_section_geometry_dup])
  next vals heq =>
    obtain ⟨hAoh_eq, hPh_eq, hAo_eq⟩ := compute_section_geometry_dup_ok_elim b h _ _ heq
    split at hrd
    next hd =>
      simp only [Except.error.injEq] at hrd
      exact Or.inl hrd.symm
    next hd =>
      split at hrd
      next hfc =>
        simp only [Except.error.injEq] at hrd
        exact Or.inr (Or.inl hrd.symm)
      next hfc =>
        split at hrd
        next hpcp =>
          simp only [Except.error.injEq] at hrd
          exact Or.inr (Or.inr hrd.symm)
        next hpcp =>
          split at hrd
          next hsafe => exact Except.noConfusion hrd
          next hsafe =>
            split at hrd
            next haoh =>
              simp only [Except.error.injEq] at hrd
              exact Or.inr (Or.inr hrd.symm)
            next haoh =>
              split at hrd
              next hdem =>
                split at hrd
                next hao =>
                  split at hrd
                  next hfy =>
                    simp only [Except.error.injEq] at hrd
                    exact Or.inr (Or.inr hrd.symm)
                  next hfy =>
                    split at hrd
                    next hfyt =>
                      simp only [Except.error.injEq] at hrd
                      exact Or.inr (Or.inr hrd.symm)
                    next hfyt => exact Except.noConfusion hrd
                next hao =>
                  exfalso
                  push_neg at haoh
                  obtain ⟨hbd, hA0⟩ := haoh
                  have h0 : (0 : ℚ) ≤ vals.Aoh := by
                    rw [hAoh_eq]
                    exact mul_nonneg (le_max_right _ _) (le_max_right _ _)
                  have h1 : (0 : ℚ) < vals.Aoh := lt_of_le_of_ne h0 (Ne.symm hA0)
                  have h2 : (0 : ℚ) < vals.Ao := by
                    rw [hAo_eq]
                    linarith
                  exact hao h2
              next hdem => exact Except.noConfusion hrd

set_option maxHeartbeats 2000000 in
theorem design_L_ok_elim (msqrt : ℚ → ℚ) (b h tf fc fy fyt tu_ft vu : ℚ)
    (bar_l : ℤ) (nl asf nt : ℚ) (bar_top : ℤ) {rd : DesignResults}
    (hrd : design_L msqrt b h tf fc fy fyt tu_ft vu bar_l nl asf nt bar_top = .ok rd) :
    ∃ g, compute_section_geometry b h SectionType.L (some tf) = .ok g ∧
      rd.phiTcr = design_phiTcr (msqrt fc) g.Acp g.Pcp ∧
      rd.Tth = rd.phiTcr / 4 ∧
      ((rd.safe = true ∧ rd.demand_exceeds_capacity = false ∧ noReinforcementFields rd) ∨
       (rd.safe = false ∧ rd.demand_exceeds_capacity = true ∧ noReinforcementFields rd) ∨
       (rd.safe = false ∧ rd.demand_exceeds_capacity = false ∧ fy ≠ 0 ∧ fyt ≠ 0 ∧
        ∃ al, rd.Al = some al ∧
          rd.req_bottom = some (asf + al / 3) ∧
          rd.req_mid = some (al / 3) ∧
          rd.req_top = some ((if 0 < nt ∧ 0 < bar_top then nt * area_of_bar bar_top else 0) + al / 3) ∧
          rd.num_bottom_bars_needed = some ⌈(asf + al / 3) / area_of_bar 8⌉ ∧
          rd.num_top_bars_needed = some
            ⌈((if 0 < nt ∧ 0 < bar_top then nt * area_of_bar bar_top else 0) + al / 3) / area_of_bar 6⌉)) := by
  rw [design_L.eq_def] at hrd
  split at hrd
  next e heq => exact absurd heq (by simp [compute_section_geometry])
  next vals heq =>
    refine ⟨vals, heq, ?_⟩
    split at hrd
    next => exact Except.noConfusion hrd
    next hd =>
      split at hrd
      next => exact Except.noConfusion hrd
      next hfc =>
        split at hrd
        next => exact Except.noConfusion hrd
        next hpcp =>
          split at hrd
          next hsafe =>
            simp only [Except.ok.injEq] at hrd
            subst hrd
            exact ⟨rfl, rfl, Or.inl ⟨rfl, rfl, rfl, rfl, rfl, rfl, rfl, rfl, rfl, rfl, rfl, rfl, rfl⟩⟩
          next hsafe =>
            split at hrd
            next => exact Except.noConfusion hrd
            next haoh =>
              split at hrd
              next hdem =>
                split at hrd
                next hao =>
                  split at hrd
                  next => exact Except.noConfusion hrd
                  next hfy =>
                    split at hrd
                    next => exact Except.noConfusion hrd
                    next hfyt =>
                      simp only [Except.ok.injEq] at hrd
                      subst hrd
                      obtain ⟨al, hAl, hrb, hrm, hrt, hnb, hnt, hsafe2, hflag2, hphi2, htth2⟩ :=
                        reinforcement_results_fields select_stirrup_and_spacing
                          area_of_bar area_of_bar (msqrt fc) b (h - 2.5) fy fyt (tu_ft * 12) vu
                          vals.Acp vals.Ph vals.Ao
                          (design_phiTcr (msqrt fc) vals.Acp vals.Pcp)
                          (design_Tth (msqrt fc) vals.Acp vals.Pcp)
                          (design_demand msqrt b (h - 2.5) (tu_ft * 12) vals.Ph vals.Aoh vu)
                          (design_Vc (msqrt fc) b (h - 2.5)) (design_phiVc (msqrt fc) b (h - 2.5))
                          (design_capacity (msqrt fc) b (h - 2.5)) bar_l nl asf nt bar_top
                          (by norm_num [area_of_bar, BAR_DIAMETERS, round6, mathPi, round_eq])
                          (by norm_num [area_of_bar, BAR_DIAMETERS, round6, mathPi, round_eq])
                      refine ⟨hphi2, ?_, Or.inr (Or.inr
                        ⟨hsafe2, hflag2, hfy, hfyt, al, hAl, hrb, hrm, hrt, hnb, hnt⟩)⟩
                      rw [htth2, hphi2]
                      rfl
                next hao =>
                  split at hrd
                  next => exact Except.noConfusion hrd
                  next =>
                    split at hrd
                    next => exact Except.noConfusion hrd
                    next => exact Except.noConfusion hrd
              next hdem =>
                simp only [Except.ok.injEq] at hrd
                subst hrd
                exact ⟨rfl, rfl, Or.inr (Or.inl
                  ⟨rfl, rfl, rfl, rfl, rfl, rfl, rfl, rfl, rfl, rfl, rfl, rfl, rfl⟩)⟩

set_option maxHeartbeats 2000000 in
theorem design_L_error_elim (msqrt : ℚ → ℚ) (b h tf fc fy fyt tu_ft vu : ℚ)
    (bar_l : ℤ) (nl asf nt : ℚ) (bar_top : ℤ) {e : PyError}
    (hrd : design_L msqrt b h tf fc fy fyt tu_ft vu bar_l nl asf nt bar_top = .error e) :
    e = .valueError ∨ e = .domainError ∨ e = .zeroDivisionError := by
  rw [design_L.eq_def] at hrd
  split at hrd
  next e2 heq => exact absurd heq (by simp [compute_section_geometry])
  next vals heq =>
    obtain ⟨hAoh_eq, hPh_eq, hAo_eq⟩ := compute_section_geometry_ok_elim b h _ _ heq
    split at hrd
    next hd =>
      simp only [Except.error.injEq] at hrd
      exact Or.inl hrd.symm
    next hd =>
      split at hrd
      next hfc =>
        simp only [Except.error.injEq] at hrd
        exact Or.inr (Or.inl hrd.symm)
      next hfc =>
        split at hrd
        next hpcp =>
          simp only [Except.error.injEq] at hrd
          exact Or.inr (Or.inr hrd.symm)
        next hpcp =>
          split at hrd
          next hsafe => exact Except.noConfusion hrd
          next hsafe =>
            split at hrd
            next haoh =>
              simp only [Except.error.injEq] at hrd
              exact Or.inr (Or.inr hrd.symm)
            next haoh =>
              split at hrd
              next hdem =>
                split at hrd
                next hao =>
                  split at hrd
                  next hfy =>
                    simp only [Except.error.injEq] at hrd
                    exact Or.inr (Or.inr hrd.symm)
                  next hfy =>
                    split at hrd
                    next hfyt =>
                      simp only [Except.error.injEq] at hrd
                      exact Or.inr (Or.inr hrd.symm)
                    next hfyt => exact Except.noConfusion hrd
                next hao =>
                  exfalso
                  push_neg at haoh
                  obtain ⟨hbd, hA0⟩ := haoh
                  have h0 : (0 : ℚ) ≤ vals.Aoh := by
                    rw [hAoh_eq]
                    exact mul_nonneg (le_max_right _ _) (le_max_right _ _)
                  have h1 : (0 : ℚ) < vals.Aoh := lt_of_le_of_ne h0 (Ne.symm hA0)
                  have h2 : (0 : ℚ) < vals.Ao := by
                    rw [hAo_eq]
                    linarith
                  exact hao h2
              next hdem => exact Except.noConfusion hrd

/-- C1 fails on the code: on b=8, h=12, fc=1 (whose square root the
identity oracle computes exactly, as the first conjunct certifies) and
Tu=0, the rectangular analysis returns Tth = Tcr/4 = 12/625 kip-ft while
the rectangular design returns Tth = (phi*Tcr)/4 = 9/625 kip-ft: the
analysis entry point omits phi, and the two paths disagree by the factor
4/3. -/
theorem C1_counterexample :
    (id (1 : ℚ)) ^ 2 = 1 ∧ (0 : ℚ) ≤ id (1 : ℚ) ∧
    analysis_rectangular id 8 12 1 0 = .ok raRect1 ∧
    design_rectangular id 8 12 1 60 60 0 0 6 2 (1/2) 0 6 = .ok rdRect1 ∧
    raRect1.Tth = 12/625 ∧ rdRect1.Tth = 9/625 ∧ (12/625 : ℚ) ≠ 9/625 := by
  refine ⟨by norm_num, by norm_num, ?_, ?_, rfl, rfl, by norm_num⟩
  · norm_num [analysis_rectangular, raRect1, AnalysisResults.mk.injEq]
  · norm_num [design_rectangular, compute_section_geometry, design_phiTcr,
      design_Tth, rdRect1, DesignResults.mk.injEq]

/-- C1 (amended): for identical inputs and square-root oracle, whenever an
analysis entry point and the matching design entry point both return a
record, the design Tth equals (phi*Tcr)/4 (with Tcr the cracking torque
computed from the same Acp, Pcp and oracle output), the analysis Tth
equals Tcr/4 without phi — so 3 times the analysis Tth equals 4 times the
design Tth — and both report the same phiTcr. -/
theorem C1_amended (msqrt : ℚ → ℚ) (b h tf fc fy fyt tu vu : ℚ)
    (bar_l : ℤ) (nl asf nt : ℚ) (bar_top : ℤ)
    (ra rd raT rdT raL rdL)
    (hra : analysis_rectangular msqrt b h fc tu = .ok ra)
    (hrd : design_rectangular msqrt b h fc fy fyt tu vu bar_l nl asf nt bar_top = .ok rd)
    (hraT : analysis_T msqrt b h tf fc tu = .ok raT)
    (hrdT : design_T msqrt b h tf fc fy fyt tu vu bar_l nl asf nt bar_top = .ok rdT)
    (hraL : analysis_L msqrt b h tf fc tu = .ok raL)
    (hrdL : design_L msqrt b h tf fc fy fyt tu vu bar_l nl asf nt bar_top = .ok rdL) :
    (ra.phiTcr = rd.phiTcr ∧ 3 * ra.Tth = 4 * rd.Tth ∧
      rd.Tth = (0.75 * ((4 * 1.0 * msqrt fc * ra.Acp ^ 2 / ra.Pcp) / (1000 * 12))) / 4) ∧
    (raT.phiTcr = rdT.phiTcr ∧ 3 * raT.Tth = 4 * rdT.Tth ∧
      rdT.Tth = (0.75 * ((4 * 1.0 * msqrt fc * raT.Acp ^ 2 / raT.Pcp) / (1000 * 12))) / 4) ∧
    (raL.phiTcr = rdL.phiTcr ∧ 3 * raL.Tth = 4 * rdL.Tth ∧
      rdL.Tth = (0.75 * ((4 * 1.0 * msqrt fc * raL.Acp ^ 2 / raL.Pcp) / (1000 * 12))) / 4) := by
  refine ⟨?_, ?_, ?_⟩
  · obtain ⟨hAcp, hPcp, -, -, -, hphi, htth⟩ :=
      analysis_rectangular_ok_elim msqrt b h fc tu hra
    obtain ⟨g, hg, hdphi, hdtth, -⟩ :=
      design_rectangular_ok_elim msqrt b h fc fy fyt tu vu bar_l nl asf nt bar_top hrd
    simp only [compute_section_geometry, Except.ok.injEq] at hg
    subst hg
    refine ⟨?_, ?_, ?_⟩
    · rw [hphi, hdphi, hAcp, hPcp]
      simp only [design_phiTcr]
      ring
    · rw [htth, hdtth, hdphi, hAcp, hPcp]
      simp only [design_phiTcr]
      ring
    · rw [hdtth, hdphi, hAcp, hPcp]
      simp only [design_phiTcr]
      ring
  · obtain ⟨hAcp, hPcp, -, -, -, hphi, htth⟩ :=
      analysis_T_ok_elim msqrt b h tf fc tu hraT
    obtain ⟨g, hg, hdphi, hdtth, -⟩ :=
      design_T_ok_elim msqrt b h tf fc fy fyt tu vu bar_l nl asf nt bar_top hrdT
    simp only [compute_section_geometry_dup, Except.ok.injEq] at hg
    subst hg
    refine ⟨?_, ?_, ?_⟩
    · rw [hphi, hdphi, hAcp, hPcp]
      simp only [design_phiTcr]
      rw [min_comm (4 * tf) (h - tf)]
      ring
    · rw [htth, hdtth, hdphi, hAcp, hPcp]
      simp only [design_phiTcr]
      rw [min_comm (4 * tf) (h - tf)]
      ring
    · rw [hdtth, hdphi, hAcp, hPcp]
      simp only [design_phiTcr]
      rw [min_comm (4 * tf) (h - tf)]
      ring
  · obtain ⟨hAcp, hPcp, -, -, -, hphi, htth⟩ :=
      analysis_L_ok_elim msqrt b h tf fc tu hraL
    obtain ⟨g, hg, hdphi, hdtth, -⟩ :=
      design_L_ok_elim msqrt b h tf fc fy fyt tu vu bar_l nl asf nt bar_top hrdL
    simp only [compute_section_geometry, Except.ok.injEq] at hg
    subst hg
    refine ⟨?_, ?_, ?_⟩
    · rw [hphi, hdphi, hAcp, hPcp]
      simp only [design_phiTcr]
      rw [min_comm (4 * tf) (h - tf)]
      ring
    · rw [htth, hdtth, hdphi, hAcp, hPcp]
      simp only [design_phiTcr]
      rw [min_comm (4 * tf) (h - tf)]
      ring
    · rw [hdtth, hdphi, hAcp, hPcp]
      simp only [design_phiTcr]
      rw [min_comm (4 * tf) (h - tf)]
      ring

/-- Witness for the amended C1 on b=8, h=12, tf=1, fc=1 with the identity
oracle: analysis and design agree on phiTcr but differ on Tth by the
factor 4/3, for all three section shapes. -/
theorem C1_amended_witness :
    (raRect1.phiTcr = rdRect1.phiTcr ∧ 3 * raRect1.Tth = 4 * rdRect1.Tth ∧
      rdRect1.Tth = (0.75 * ((4 * 1.0 * id (1 : ℚ) * raRect1.Acp ^ 2 / raRect1.Pcp) / (1000 * 12))) / 4) ∧
    (raT1.phiTcr = rdT1.phiTcr ∧ 3 * raT1.Tth = 4 * rdT1.Tth ∧
      rdT1.Tth = (0.75 * ((4 * 1.0 * id (1 : ℚ) * raT1.Acp ^ 2 / raT1.Pcp) / (1000 * 12))) / 4) ∧
    (raL1.phiTcr = rdL1.phiTcr ∧ 3 * raL1.Tth = 4 * rdL1.Tth ∧
      rdL1.Tth = (0.75 * ((4 * 1.0 * id (1 : ℚ) * raL1.Acp ^ 2 / raL1.Pcp) / (1000 * 12))) / 4) :=
  C1_amended id 8 12 1 1 60 60 0 0 6 2 (1/2) 0 6 raRect1 rdRect1 raT1 rdT1 raL1 rdL1
    (by norm_num [analysis_rectangular, raRect1, AnalysisResults.mk.injEq])
    (by norm_num [design_rectangular, compute_section_geometry, design_phiTcr,
      design_Tth, rdRect1, DesignResults.mk.injEq])
    (by norm_num [analysis_T, raT1, AnalysisResults.mk.injEq])
    (by norm_num [design_T, compute_section_geometry_dup, design_phiTcr,
      design_Tth, rdT1, DesignResults.mk.injEq])
    (by norm_num [analysis_L, raL1, AnalysisResults.mk.injEq])
    (by norm_num [design_L, compute_section_geometry, design_phiTcr,
      design_Tth, rdL1, DesignResults.mk.injEq])

/-- C9: for positive b and h, in both hollow-core geometry variants — the
cover-plus-0.25 deduction of `compute_section_geometry` (and its verbatim
duplicate) and the cover-only deduction inlined in the three analysis
functions — every returned record satisfies Aoh ≥ 0, Ph ≥ 0 and
Ao = 0.85·Aoh exactly. -/
theorem C9_hollow_core_invariants (msqrt : ℚ → ℚ) (b h fc tu tf : ℚ)
    (st : SectionType) (tf? : Option ℚ) (hb : 0 < b) (hh : 0 < h) :
    (∀ g, compute_section_geometry b h st tf? = .ok g →
      0 ≤ g.Aoh ∧ 0 ≤ g.Ph ∧ g.Ao = 0.85 * g.Aoh) ∧
    (∀ g, compute_section_geometry_dup b h st tf? = .ok g →
      0 ≤ g.Aoh ∧ 0 ≤ g.Ph ∧ g.Ao = 0.85 * g.Aoh) ∧
    (∀ r, analysis_rectangular msqrt b h fc tu = .ok r →
      0 ≤ r.Aoh ∧ 0 ≤ r.Ph ∧ r.Ao = 0.85 * r.Aoh) ∧
    (∀ r, analysis_T msqrt b h tf fc tu = .ok r →
      0 ≤ r.Aoh ∧ 0 ≤ r.Ph ∧ r.Ao = 0.85 * r.Aoh) ∧
    (∀ r, analysis_L msqrt b h tf fc tu = .ok r →
      0 ≤ r.Aoh ∧ 0 ≤ r.Ph ∧ r.Ao = 0.85 * r.Aoh) := by
  have hx : (0 : ℚ) ≤ max (b - 2 * 0.75 - 0.25) 0 := le_max_right _ _
  have hy : (0 : ℚ) ≤ max (h - 2 * 0.75 - 0.25) 0 := le_max_right _ _
  have hx2 : (0 : ℚ) ≤ max (b - 2 * 0.75) 0 := le_max_right _ _
  have hy2 : (0 : ℚ) ≤ max (h - 2 * 0.75) 0 := le_max_right _ _
  refine ⟨?_, ?_, ?_, ?_, ?_⟩
  · intro g hg
    obtain ⟨h1, h2, h3⟩ := compute_section_geometry_ok_elim b h st tf? hg
    exact ⟨h1 ▸ mul_nonneg hx hy, h2 ▸ by linarith, h3⟩
  · intro g hg
    obtain ⟨h1, h2, h3⟩ := compute_section_geometry_dup_ok_elim b h st tf? hg
    exact ⟨h1 ▸ mul_nonneg hx hy, h2 ▸ by linarith, h3⟩
  · intro r hr
    obtain ⟨-, -, h1, h2, h3, -, -⟩ := analysis_rectangular_ok_elim msqrt b h fc tu hr
    exact ⟨h1 ▸ mul_nonneg hx2 hy2, h2 ▸ by linarith, h3⟩
  · intro r hr
    obtain ⟨-, -, h1, h2, h3, -, -⟩ := analysis_T_ok_elim msqrt b h tf fc tu hr
    exact ⟨h1 ▸ mul_nonneg hx2 hy2, h2 ▸ by linarith, h3⟩
  · intro r hr
    obtain ⟨-, -, h1, h2, h3, -, -⟩ := analysis_L_ok_elim msqrt b h tf fc tu hr
    exact ⟨h1 ▸ mul_nonneg hx2 hy2, h2 ▸ by linarith, h3⟩

/-- Witness for C9 on b=8, h=12, tf=1, fc=4, Tu=0 with the identity
oracle, at the concrete records each function returns. -/
theorem C9_witness :
    ((0 : ℚ) ≤ geomRect8x12.Aoh ∧ (0 : ℚ) ≤ geomRect8x12.Ph ∧
      geomRect8x12.Ao = 0.85 * geomRect8x12.Aoh) ∧
    ((0 : ℚ) ≤ raRect4.Aoh ∧ (0 : ℚ) ≤ raRect4.Ph ∧ raRect4.Ao = 0.85 * raRect4.Aoh) ∧
    ((0 : ℚ) ≤ raT4.Aoh ∧ (0 : ℚ) ≤ raT4.Ph ∧ raT4.Ao = 0.85 * raT4.Aoh) ∧
    ((0 : ℚ) ≤ raL4.Aoh ∧ (0 : ℚ) ≤ raL4.Ph ∧ raL4.Ao = 0.85 * raL4.Aoh) := by
  have hth := C9_hollow_core_invariants id 8 12 4 0 1 SectionType.Rect none
    (by norm_num) (by norm_num)
  refine ⟨?_, ?_, ?_, ?_⟩
  · exact hth.1 geomRect8x12
      (by norm_num [compute_section_geometry, geomRect8x12, Geometry.mk.injEq])
  · exact hth.2.2.1 raRect4
      (by norm_num [analysis_rectangular, raRect4, AnalysisResults.mk.injEq])
  · exact hth.2.2.2.1 raT4
      (by norm_num [analysis_T, raT4, AnalysisResults.mk.injEq])
  · exact hth.2.2.2.2 raL4
      (by norm_num [analysis_L, raL4, AnalysisResults.mk.injEq])

/-- C7: in every design entry point, whenever the run reaches the
demand-capacity comparison and the demand strictly exceeds the capacity,
the function returns a record normally (no error), the record carries
demand_exceeds_capacity = true (and safe = false), and it contains none of
the reinforcement fields Al, Ats, Atsmin, stirrup_bar, stirrup_spacing,
req_bottom, req_mid, req_top, num_bottom_bars_needed, num_top_bars_needed,
mid_bar. -/
theorem C7_demand_exceeds_capacity (msqrt : ℚ → ℚ) (b h tf fc fy fyt tu vu : ℚ)
    (bar_l : ℤ) (nl asf nt : ℚ) (bar_top : ℤ) (g gT gL : Geometry)
    (hgR : compute_section_geometry b h SectionType.Rect none = .ok g)
    (hxR : ExceedsAt msqrt b h fc tu vu g)
    (hgT : compute_section_geometry_dup b h SectionType.T (some tf) = .ok gT)
    (hxT : ExceedsAt msqrt b h fc tu vu gT)
    (hgL : compute_section_geometry b h SectionType.L (some tf) = .ok gL)
    (hxL : ExceedsAt msqrt b h fc tu vu gL) :
    (∃ r, design_rectangular msqrt b h fc fy fyt tu vu bar_l nl asf nt bar_top = .ok r ∧
      r.demand_exceeds_capacity = true ∧ r.safe = false ∧ noReinforcementFields r) ∧
    (∃ r, design_T msqrt b h tf fc fy fyt tu vu bar_l nl asf nt bar_top = .ok r ∧
      r.demand_exceeds_capacity = true ∧ r.safe = false ∧ noReinforcementFields r) ∧
    (∃ r, design_L msqrt b h tf fc fy fyt tu vu bar_l nl asf nt bar_top = .ok r ∧
      r.demand_exceeds_capacity = true ∧ r.safe = false ∧ noReinforcementFields r) := by
  simp only [ExceedsAt] at hxR hxT hxL
  obtain ⟨h1, h2, h3, h4, h5, h6⟩ := hxR
  obtain ⟨t1, t2, t3, t4, t5, t6⟩ := hxT
  obtain ⟨l1, l2, l3, l4, l5, l6⟩ := hxL
  refine ⟨?_, ?_, ?_⟩
  · rw [design_rectangular.eq_def, hgR]
    dsimp only
    rw [if_neg h1, if_neg h2, if_neg h3, if_neg h4, if_neg h5, if_neg h6]
    exact ⟨_, rfl, rfl, rfl, rfl, rfl, rfl, rfl, rfl, rfl, rfl, rfl, rfl, rfl, rfl⟩
  · rw [design_T.eq_def, hgT]
    dsimp only
    rw [if_neg t1, if_neg t2, if_neg t3, if_neg t4, if_neg t5, if_neg t6]
    exact ⟨_, rfl, rfl, rfl, rfl, rfl, rfl, rfl, rfl, rfl, rfl, rfl, rfl, rfl, rfl⟩
  · rw [design_L.eq_def, hgL]
    dsimp only
    rw [if_neg l1, if_neg l2, if_neg l3, if_neg l4, if_neg l5, if_neg l6]
    exact ⟨_, rfl, rfl, rfl, rfl, rfl, rfl, rfl, rfl, rfl, rfl, rfl, rfl, rfl, rfl⟩

/-- Witness for C7 on b=8, h=12, tf=1, fc=0, Tu=1, Vu=0 with the identity
oracle: all three design entry points return the flag record normally. -/
theorem C7_witness :
    (∃ r, design_rectangular id 8 12 0 60 60 1 0 6 2 (1/2) 0 6 = .ok r ∧
      r.demand_exceeds_capacity = true ∧ r.safe = false ∧ noReinforcementFields r) ∧
    (∃ r, design_T id 8 12 1 0 60 60 1 0 6 2 (1/2) 0 6 = .ok r ∧
      r.demand_exceeds_capacity = true ∧ r.safe = false ∧ noReinforcementFields r) ∧
    (∃ r, design_L id 8 12 1 0 60 60 1 0 6 2 (1/2) 0 6 = .ok r ∧
      r.demand_exceeds_capacity = true ∧ r.safe = false ∧ noReinforcementFields r) := by
  have hgR : compute_section_geometry 8 12 SectionType.Rect none = .ok geomRect8x12 := by
    norm_num [compute_section_geometry, geomRect8x12, Geometry.mk.injEq]
  have hgT : compute_section_geometry_dup 8 12 SectionType.T (some 1) = .ok geomT8x12 := by
    norm_num [compute_section_geometry_dup, geomT8x12, Geometry.mk.injEq]
  have hgL : compute_section_geometry 8 12 SectionType.L (some 1) = .ok geomL8x12 := by
    norm_num [compute_section_geometry, geomL8x12, Geometry.mk.injEq]
  exact C7_demand_exceeds_capacity id 8 12 1 0 60 60 1 0 6 2 (1/2) 0 6
    geomRect8x12 geomT8x12 geomL8x12
    hgR (by norm_num [ExceedsAt, geomRect8x12, design_Tth, design_phiTcr,
      design_demand, design_capacity, design_Vc])
    hgT (by norm_num [ExceedsAt, geomT8x12, design_Tth, design_phiTcr,
      design_demand, design_capacity, design_Vc])
    hgL (by norm_num [ExceedsAt, geomL8x12, design_Tth, design_phiTcr,
      design_demand, design_capacity, design_Vc])

/-- C4 fails on the code: with fy = 0 on a run that reaches the sizing
step (b=8, h=12, fc=0, Tu=Vu=0: Tth = 0 is not above Tu, and demand
0 ≤ capacity 0), the division in `Al = (tu_in*Ph)/(phi*2*Ao*fy)` raises
python's untyped ZeroDivisionError at the division itself — not a typed
InvalidMaterial before dividing. The oracle is queried only at 0, where
the identity oracle returns math.sqrt's exact value 0. -/
theorem C4_counterexample :
    design_rectangular id 8 12 0 0 60 0 0 6 2 (1/2) 0 6 =
      .error .zeroDivisionError ∧
    PyError.zeroDivisionError ≠ PyError.invalidMaterial := by
  refine ⟨?_, by decide⟩
  norm_num [design_rectangular, compute_section_geometry, design_phiTcr,
    design_Tth, design_demand, design_capacity, design_Vc, design_phiVc]

/-- C4 (amended): when fy = 0 or fyt = 0, no design entry point ever
completes the sizing step — every normal return is a safe or
demand-exceeds-capacity record with no Al — and every failure is one of
ValueError / math-domain-error / ZeroDivisionError, never a typed
InvalidMaterial; no design entry point ever reaches the float('inf')
overflow path, so no infinity can appear in a returned record. -/
theorem C4_amended (msqrt : ℚ → ℚ) (b h tf fc fy fyt tu vu : ℚ)
    (bar_l : ℤ) (nl asf nt : ℚ) (bar_top : ℤ)
    (hzero : fy = 0 ∨ fyt = 0) :
    (∀ r, design_rectangular msqrt b h fc fy fyt tu vu bar_l nl asf nt bar_top = .ok r →
      (r.safe = true ∨ r.demand_exceeds_capacity = true) ∧ r.Al = none) ∧
    (∀ r, design_T msqrt b h tf fc fy fyt tu vu bar_l nl asf nt bar_top = .ok r →
      (r.safe = true ∨ r.demand_exceeds_capacity = true) ∧ r.Al = none) ∧
    (∀ r, design_L msqrt b h tf fc fy fyt tu vu bar_l nl asf nt bar_top = .ok r →
      (r.safe = true ∨ r.demand_exceeds_capacity = true) ∧ r.Al = none) ∧
    (∀ e, design_rectangular msqrt b h fc fy fyt tu vu bar_l nl asf nt bar_top = .error e →
      e ≠ PyError.invalidMaterial ∧ e ≠ PyError.overflowError) ∧
    (∀ e, design_T msqrt b h tf fc fy fyt tu vu bar_l nl asf nt bar_top = .error e →
      e ≠ PyError.invalidMaterial ∧ e ≠ PyError.overflowError) ∧
    (∀ e, design_L msqrt b h tf fc fy fyt tu vu bar_l nl asf nt bar_top = .error e →
      e ≠ PyError.invalidMaterial ∧ e ≠ PyError.overflowError) := by
  refine ⟨?_, ?_, ?_, ?_, ?_, ?_⟩
  · intro r hr
    obtain ⟨g, hg, -, -, hcase⟩ :=
      design_rectangular_ok_elim msqrt b h fc fy fyt tu vu bar_l nl asf nt bar_top hr
    rcases hcase with ⟨hs, -, hnone⟩ | ⟨-, hf, hnone⟩ | ⟨-, -, hfy, hfyt, -⟩
    · exact ⟨Or.inl hs, hnone.1⟩
    · exact ⟨Or.inr hf, hnone.1⟩
    · rcases hzero with h0 | h0
      · exact absurd h0 hfy
      · exact absurd h0 hfyt
  · intro r hr
    obtain ⟨g, hg, -, -, hcase⟩ :=
      design_T_ok_elim msqrt b h tf fc fy fyt tu vu bar_l nl asf nt bar_top hr
    rcases hcase with ⟨hs, -, hnone⟩ | ⟨-, hf, hnone⟩ | ⟨-, -, hfy, hfyt, -⟩
    · exact ⟨Or.inl hs, hnone.1⟩
    · exact ⟨Or.inr hf, hnone.1⟩
    · rcases hzero with h0 | h0
      · exact absurd h0 hfy
      · exact absurd h0 hfyt
  · intro r hr
    obtain ⟨g, hg, -, -, hcase⟩ :=
      design_L_ok_elim msqrt b h tf fc fy fyt tu vu bar_l nl asf nt bar_top hr
    rcases hcase with ⟨hs, -, hnone⟩ | ⟨-, hf, hnone⟩ | ⟨-, -, hfy, hfyt, -⟩
    · exact ⟨Or.inl hs, hnone.1⟩
    · exact ⟨Or.inr hf, hnone.1⟩
    · rcases hzero with h0 | h0
      · exact absurd h0 hfy
      · exact absurd h0 hfyt
  · intro e he
    rcases design_rectangular_error_elim msqrt b h fc fy fyt tu vu bar_l nl asf nt bar_top he
      with h | h | h <;> subst h <;> exact ⟨by decide, by decide⟩
  · intro e he
    rcases design_T_error_elim msqrt b h tf fc fy fyt tu vu bar_l nl asf nt bar_top he
      with h | h | h <;> subst h <;> exact ⟨by decide, by decide⟩
  · intro e he
    rcases design_L_error_elim msqrt b h tf fc fy fyt tu vu bar_l nl asf nt bar_top he
      with h | h | h <;> subst h <;> exact ⟨by decide, by decide⟩

/-- Witness for the amended C4: with fy = 0, the safe-branch runs on fc=1
(identity oracle, exact: sqrt 1 = 1) still return records with no Al, and
the sizing-reaching run on fc=0 (identity oracle, exact: sqrt 0 = 0) fails
with ZeroDivisionError, which is neither InvalidMaterial nor
OverflowError. -/
theorem C4_amended_witness :
    ((rdRect1.safe = true ∨ rdRect1.demand_exceeds_capacity = true) ∧ rdRect1.Al = none) ∧
    ((rdT1.safe = true ∨ rdT1.demand_exceeds_capacity = true) ∧ rdT1.Al = none) ∧
    ((rdL1.safe = true ∨ rdL1.demand_exceeds_capacity = true) ∧ rdL1.Al = none) ∧
    (PyError.zeroDivisionError ≠ PyError.invalidMaterial ∧
     PyError.zeroDivisionError ≠ PyError.overflowError) := by
  have hth := C4_amended id 8 12 1 1 0 60 0 0 6 2 (1/2) 0 6 (Or.inl rfl)
  have hth2 := C4_amended id 8 12 1 0 0 60 0 0 6 2 (1/2) 0 6 (Or.inl rfl)
  refine ⟨?_, ?_, ?_, ?_⟩
  · exact hth.1 rdRect1 (by norm_num [design_rectangular, compute_section_geometry,
      design_phiTcr, design_Tth, rdRect1, DesignResults.mk.injEq])
  · exact hth.2.1 rdT1 (by norm_num [design_T, compute_section_geometry_dup,
      design_phiTcr, design_Tth, rdT1, DesignResults.mk.injEq])
  · exact hth.2.2.1 rdL1 (by norm_num [design_L, compute_section_geometry,
      design_phiTcr, design_Tth, rdL1, DesignResults.mk.injEq])
  · exact hth2.2.2.2.1 PyError.zeroDivisionError
      (by norm_num [design_rectangular, compute_section_geometry, design_phiTcr,
        design_Tth, design_demand, design_capacity, design_Vc, design_phiVc])

/-- C8: whenever a design entry point reaches the sizing step and returns a
record with a computed longitudinal steel area Al, the requirement fields
distribute Al in thirds: bottom gets As_flexure + Al/3, mid gets Al/3, top
gets the user top-bar area plus Al/3, and the needed bar counts are the
ceilings of bottom/area(#8) and top/area(#6) — using area_of_bar in the
rectangular and L paths and area_of_bar_explicit in the T path. -/
theorem C8_longitudinal_allocation (msqrt : ℚ → ℚ) (b h tf fc fy fyt tu vu : ℚ)
    (bar_l : ℤ) (nl asf nt : ℚ) (bar_top : ℤ) :
    (∀ r al, design_rectangular msqrt b h fc fy fyt tu vu bar_l nl asf nt bar_top = .ok r →
      r.Al = some al →
      r.req_bottom = some (asf + al / 3) ∧
      r.req_mid = some (al / 3) ∧
      r.req_top = some ((if 0 < nt ∧ 0 < bar_top then nt * area_of_bar bar_top else 0) + al / 3) ∧
      r.num_bottom_bars_needed = some ⌈(asf + al / 3) / area_of_bar 8⌉ ∧
      r.num_top_bars_needed = some
        ⌈((if 0 < nt ∧ 0 < bar_top then nt * area_of_bar bar_top else 0) + al / 3) / area_of_bar 6⌉) ∧
    (∀ r al, design_T msqrt b h tf fc fy fyt tu vu bar_l nl asf nt bar_top = .ok r →
      r.Al = some al →
      r.req_bottom = some (asf + al / 3) ∧
      r.req_mid = some (al / 3) ∧
      r.req_top = some ((if 0 < nt ∧ 0 < bar_top then nt * area_of_bar_explicit bar_top else 0) + al / 3) ∧
      r.num_bottom_bars_needed = some ⌈(asf + al / 3) / area_of_bar_explicit 8⌉ ∧
      r.num_top_bars_needed = some
        ⌈((if 0 < nt ∧ 0 < bar_top then nt * area_of_bar_explicit bar_top else 0) + al / 3) / area_of_bar_explicit 6⌉) ∧
    (∀ r al, design_L msqrt b h tf fc fy fyt tu vu bar_l nl asf nt bar_top = .ok r →
      r.Al = some al →
      r.req_bottom = some (asf + al / 3) ∧
      r.req_mid = some (al / 3) ∧
      r.req_top = some ((if 0 < nt ∧ 0 < bar_top then nt * area_of_bar bar_top else 0) + al / 3) ∧
      r.num_bottom_bars_needed = some ⌈(asf + al / 3) / area_of_bar 8⌉ ∧
      r.num_top_bars_needed = some
        ⌈((if 0 < nt ∧ 0 < bar_top then nt * area_of_bar bar_top else 0) + al / 3) / area_of_bar 6⌉) := by
  refine ⟨?_, ?_, ?_⟩
  · intro r al hr hal
    obtain ⟨g, -, -, -, hcase⟩ :=
      design_rectangular_ok_elim msqrt b h fc fy fyt tu vu bar_l nl asf nt bar_top hr
    rcases hcase with ⟨-, -, hnone⟩ | ⟨-, -, hnone⟩ |
      ⟨-, -, -, -, al2, hal2, h1, h2, h3, h4, h5⟩
    · rw [hnone.1] at hal; exact Option.noConfusion hal
    · rw [hnone.1] at hal; exact Option.noConfusion hal
    · rw [hal2] at hal
      injection hal with he
      subst he
      exact ⟨h1, h2, h3, h4, h5⟩
  · intro r al hr hal
    obtain ⟨g, -, -, -, hcase⟩ :=
      design_T_ok_elim msqrt b h tf fc fy fyt tu vu bar_l nl asf nt bar_top hr
    rcases hcase with ⟨-, -, hnone⟩ | ⟨-, -, hnone⟩ |
      ⟨-, -, -, -, al2, hal2, h1, h2, h3, h4, h5⟩
    · rw [hnone.1] at hal; exact Option.noConfusion hal
    · rw [hnone.1] at hal; exact Option.noConfusion hal
    · rw [hal2] at hal
      injection hal with he
      subst he
      exact ⟨h1, h2, h3, h4, h5⟩
  · intro r al hr hal
    obtain ⟨g, -, -, -, hcase⟩ :=
      design_L_ok_elim msqrt b h tf fc fy fyt tu vu bar_l nl asf nt bar_top hr
    rcases hcase with ⟨-, -, hnone⟩ | ⟨-, -, hnone⟩ |
      ⟨-, -, -, -, al2, hal2, h1, h2, h3, h4, h5⟩
    · rw [hnone.1] at hal; exact Option.noConfusion hal
    · rw [hnone.1] at hal; exact Option.noConfusion hal
    · rw [hal2] at hal
      injection hal with he
      subst he
      exact ⟨h1, h2, h3, h4, h5⟩

/-- Witness for C8: the concrete rectangular sizing run on b=8, h=12,
fc=4000, fy=fyt=60, Tu=Vu=0 (all-zero oracle) returns `sizedRun` with
Al = 0, and its requirement and bar-count fields are exactly the
distribution the claim theorem prescribes. -/
theorem C8_witness :
    sizedRun.req_bottom = some (1/2 + 0/3) ∧
    sizedRun.req_mid = some ((0:ℚ)/3) ∧
    sizedRun.req_top = some ((if (0:ℚ) < 0 ∧ (0:ℤ) < 6 then 0 * area_of_bar 6 else 0) + 0/3) ∧
    sizedRun.num_bottom_bars_needed = some ⌈((1:ℚ)/2 + 0/3) / area_of_bar 8⌉ ∧
    sizedRun.num_top_bars_needed = some
      ⌈((if (0:ℚ) < 0 ∧ (0:ℤ) < 6 then 0 * area_of_bar 6 else 0) + 0/3) / area_of_bar 6⌉ :=
  (C8_longitudinal_allocation (fun _ => 0) 8 12 1 4000 60 60 0 0 6 2 (1/2) 0 6).1
    sizedRun 0
    (by norm_num [design_rectangular, compute_section_geometry, design_phiTcr,
      design_Tth, design_demand, design_capacity, design_Vc, design_phiVc,
      reinforcement_results, select_stirrup_and_spacing, stirrup_scan, bar_options,
      mid_bar_scan, List.range', List.find?, area_of_bar, area_of_bar_explicit,
      BAR_DIAMETERS, round6, mathPi, round_eq, Int.floor_eq_iff, Int.ceil_eq_iff,
      sizedRun, DesignResults.mk.injEq])
    rfl
